import Mathlib

/-!
Verification of the LearnIT chat agent (`src/app.py`).

The development shallowly embeds the agent's data model and operations:
JSON/Python values become the inductive `JVal`, dict operations become
assoc-list operations with Python's update-in-place-or-append semantics,
the outbound HTTP layer becomes an explicit `Backend` oracle, and code
that can raise a Python exception returns `Except PyExn _`.
-/

namespace LearnIt

/-- Shorthand: the characters of a string literal. All embedded strings are
`List Char` so that substring and regex-like scans are structural. -/
def cs (s : String) : List Char := s.data

/-- A JSON value as produced by `requests.Response.json()` / held in Python
dicts and lists. Numbers are integers (the catalog API traffics in ints;
floats are out of scope of this model). Objects are insertion-ordered
key/value lists, mirroring Python dicts. -/
inductive JVal where
  | null
  | bool (b : Bool)
  | num (n : Int)
  | str (s : List Char)
  | arr (xs : List JVal)
  | obj (fields : List (List Char × JVal))

mutual

/-- Decidable equality for `JVal` (the automatic derivation does not support
nested inductives). -/
def JVal.decEq : (a b : JVal) → Decidable (a = b)
  | .null, .null => .isTrue rfl
  | .null, .bool _ => .isFalse (fun h => JVal.noConfusion h)
  | .null, .num _ => .isFalse (fun h => JVal.noConfusion h)
  | .null, .str _ => .isFalse (fun h => JVal.noConfusion h)
  | .null, .arr _ => .isFalse (fun h => JVal.noConfusion h)
  | .null, .obj _ => .isFalse (fun h => JVal.noConfusion h)
  | .bool _, .null => .isFalse (fun h => JVal.noConfusion h)
  | .bool a, .bool b =>
    if h : a = b then .isTrue (by rw [h]) else .isFalse (fun e => h (JVal.bool.inj e))
  | .bool _, .num _ => .isFalse (fun h => JVal.noConfusion h)
  | .bool _, .str _ => .isFalse (fun h => JVal.noConfusion h)
  | .bool _, .arr _ => .isFalse (fun h => JVal.noConfusion h)
  | .bool _, .obj _ => .isFalse (fun h => JVal.noConfusion h)
  | .num _, .null => .isFalse (fun h => JVal.noConfusion h)
  | .num _, .bool _ => .isFalse (fun h => JVal.noConfusion h)
  | .num a, .num b =>
    if h : a = b then .isTrue (by rw [h]) else .isFalse (fun e => h (JVal.num.inj e))
  | .num _, .str _ => .isFalse (fun h => JVal.noConfusion h)
  | .num _, .arr _ => .isFalse (fun h => JVal.noConfusion h)
  | .num _, .obj _ => .isFalse (fun h => JVal.noConfusion h)
  | .str _, .null => .isFalse (fun h => JVal.noConfusion h)
  | .str _, .bool _ => .isFalse (fun h => JVal.noConfusion h)
  | .str _, .num _ => .isFalse (fun h => JVal.noConfusion h)
  | .str a, .str b =>
    if h : a = b then .isTrue (by rw [h]) else .isFalse (fun e => h (JVal.str.inj e))
  | .str _, .arr _ => .isFalse (fun h => JVal.noConfusion h)
  | .str _, .obj _ => .isFalse (fun h => JVal.noConfusion h)
  | .arr _, .null => .isFalse (fun h => JVal.noConfusion h)
  | .arr _, .bool _ => .isFalse (fun h => JVal.noConfusion h)
  | .arr _, .num _ => .isFalse (fun h => JVal.noConfusion h)
  | .arr _, .str _ => .isFalse (fun h => JVal.noConfusion h)
  | .arr a, .arr b =>
    match JVal.decEqList a b with
    | .isTrue h => .isTrue (by rw [h])
    | .isFalse h => .isFalse (fun e => h (JVal.arr.inj e))
  | .arr _, .obj _ => .isFalse (fun h => JVal.noConfusion h)
  | .obj _, .null => .isFalse (fun h => JVal.noConfusion h)
  | .obj _, .bool _ => .isFalse (fun h => JVal.noConfusion h)
  | .obj _, .num _ => .isFalse (fun h => JVal.noConfusion h)
  | .obj _, .str _ => .isFalse (fun h => JVal.noConfusion h)
  | .obj _, .arr _ => .isFalse (fun h => JVal.noConfusion h)
  | .obj a, .obj b =>
    match JVal.decEqFields a b with
    | .isTrue h => .isTrue (by rw [h])
    | .isFalse h => .isFalse (fun e => h (JVal.obj.inj e))

/-- Decidable equality for lists of `JVal`. -/
def JVal.decEqList : (a b : List JVal) → Decidable (a = b)
  | [], [] => .isTrue rfl
  | [], _ :: _ => .isFalse (fun h => List.noConfusion h)
  | _ :: _, [] => .isFalse (fun h => List.noConfusion h)
  | a :: as, b :: bs =>
    match JVal.decEq a b with
    | .isTrue h1 =>
      match JVal.decEqList as bs with
      | .isTrue h2 => .isTrue (by rw [h1, h2])
      | .isFalse h2 => .isFalse (by intro e; injection e with e1 e2; exact h2 e2)
    | .isFalse h1 => .isFalse (by intro e; injection e with e1 e2; exact h1 e1)

/-- Decidable equality for `JVal` object field lists. -/
def JVal.decEqFields : (a b : List (List Char × JVal)) → Decidable (a = b)
  | [], [] => .isTrue rfl
  | [], _ :: _ => .isFalse (fun h => List.noConfusion h)
  | _ :: _, [] => .isFalse (fun h => List.noConfusion h)
  | (k, v) :: as, (l, w) :: bs =>
    if hk : k = l then
      match JVal.decEq v w with
      | .isTrue hv =>
        match JVal.decEqFields as bs with
        | .isTrue ht => .isTrue (by rw [hk, hv, ht])
        | .isFalse ht => .isFalse (by intro e; injection e with e1 e2; exact ht e2)
      | .isFalse hv =>
        .isFalse (by intro e; injection e with e1 e2; exact hv (congrArg Prod.snd e1))
    else .isFalse (by intro e; injection e with e1 e2; exact hk (congrArg Prod.fst e1))

end

instance : DecidableEq JVal := JVal.decEq

/-- First-match lookup in an object's field list: Python `d[k]` / `d.get(k)`
on a dict whose keys are unique. -/
def getKey : List (List Char × JVal) → List Char → Option JVal
  | [], _ => none
  | (k, v) :: rest, key => if k = key then some v else getKey rest key

/-- Python `d.get(key, default)`. -/
def getD (fs : List (List Char × JVal)) (key : List Char) (dflt : JVal) : JVal :=
  (getKey fs key).getD dflt

/-- Python `d.get(key)` (default `None`). -/
def pyGet (fs : List (List Char × JVal)) (key : List Char) : JVal :=
  getD fs key .null

/-- Python `d[key] = v`: replace the value at the key's existing position, or
append the pair at the end when the key is absent. -/
def setKey : List (List Char × JVal) → List Char → JVal → List (List Char × JVal)
  | [], key, v => [(key, v)]
  | (k, w) :: rest, key, v =>
    if k = key then (k, v) :: rest else (k, w) :: setKey rest key v

/-- Python `d.setdefault(key, v)`: insert only when the key is absent. -/
def setdefault (fs : List (List Char × JVal)) (key : List Char) (v : JVal) :
    List (List Char × JVal) :=
  if (getKey fs key).isSome then fs else fs ++ [(key, v)]

/-- Python truthiness of a JSON value. -/
def pyTruthy : JVal → Bool
  | .null => false
  | .bool b => b
  | .num n => n != 0
  | .str s => !s.isEmpty
  | .arr xs => !xs.isEmpty
  | .obj fs => !fs.isEmpty

/-- Python `a or b`: `a` when truthy, else `b`. -/
def pyOr (a b : JVal) : JVal := if pyTruthy a then a else b

/-- Python `pat in s` for strings. -/
def pyIn (pat : List Char) : List Char → Bool
  | [] => pat.isEmpty
  | c :: rest => pat.isPrefixOf (c :: rest) || pyIn pat rest

/-- Decimal rendering of an integer, as Python `str`/f-strings produce it. -/
def intStr (n : Int) : List Char := (toString n).data

/-- Decimal rendering of a natural number. -/
def natStr (n : Nat) : List Char := (toString n).data

/-- Python `repr` of a string: quote selection as CPython does (single quotes
unless the text contains a single quote but no double quote), escaping the
backslash, the chosen quote, and the common control characters. Exotic
non-printable escapes are out of scope of this model. -/
def reprChars (s : List Char) : List Char :=
  let q : Char := if s.contains '\'' && !s.contains '"' then '"' else '\''
  let esc : Char → List Char := fun c =>
    if c = '\\' then ['\\', '\\']
    else if c = q then ['\\', q]
    else if c = '\n' then ['\\', 'n']
    else if c = '\r' then ['\\', 'r']
    else if c = '\t' then ['\\', 't']
    else [c]
  q :: (s.foldr (fun c acc => esc c ++ acc) [q])

mutual

/-- Python `repr` of a JSON value (used by `str()` on containers). -/
def pyRepr : JVal → List Char
  | .null => cs "None"
  | .bool true => cs "True"
  | .bool false => cs "False"
  | .num n => intStr n
  | .str s => reprChars s
  | .arr xs => '[' :: (pyReprList xs ++ [']'])
  | .obj fs => '\x7b' :: (pyReprFields fs ++ ['\x7d'])

/-- `repr` of the elements of a Python list, comma-separated. -/
def pyReprList : List JVal → List Char
  | [] => []
  | [x] => pyRepr x
  | x :: y :: rest => pyRepr x ++ cs ", " ++ pyReprList (y :: rest)

/-- `repr` of the entries of a Python dict, comma-separated. -/
def pyReprFields : List (List Char × JVal) → List Char
  | [] => []
  | [(k, v)] => reprChars k ++ cs ": " ++ pyRepr v
  | (k, v) :: kv :: rest =>
    reprChars k ++ cs ": " ++ pyRepr v ++ cs ", " ++ pyReprFields (kv :: rest)

end

/-- Python `str()` of a JSON value. -/
def pyStr : JVal → List Char
  | .null => cs "None"
  | .bool true => cs "True"
  | .bool false => cs "False"
  | .num n => intStr n
  | .str s => s
  | .arr xs => pyRepr (.arr xs)
  | .obj fs => pyRepr (.obj fs)

/-- The Python exceptions the embedded code can raise. `timeoutError` stands
for `requests.exceptions.Timeout` escaping an outbound HTTP call. -/
inductive PyExn where
  | timeoutError
  | attributeError
  | typeError
  | keyError
deriving DecidableEq

/-- `sanitize_text` (app.py:73): `None` becomes `""`, non-strings are passed
through `str()`; the UTF-8 encode/decode round-trip is the identity on the
well-formed text this model carries. -/
def sanitize_text : JVal → List Char
  | .null => []
  | .str s => s
  | v => pyStr v

/-- Characters `urllib.parse.quote_plus` leaves unencoded. -/
def urlSafe (c : Char) : Bool :=
  c.isAlphanum || c = '_' || c = '.' || c = '-' || c = '~'

/-- Upper-case hex digit. -/
def hexDig (n : Nat) : Char :=
  if n < 10 then Char.ofNat (48 + n) else Char.ofNat (55 + n)

/-- UTF-8 bytes of a character. -/
def utf8Bytes (c : Char) : List Nat :=
  let n := c.toNat
  if n < 128 then [n]
  else if n < 2048 then [192 + n / 64, 128 + n % 64]
  else if n < 65536 then [224 + n / 4096, 128 + (n / 64) % 64, 128 + n % 64]
  else [240 + n / 262144, 128 + (n / 4096) % 64, 128 + (n / 64) % 64, 128 + n % 64]

/-- Percent-encoding of a query-parameter value, as `requests` produces it
(`quote_plus`: space becomes `+`, unsafe characters become `%XX` per UTF-8
byte). -/
def urlEnc (s : List Char) : List Char :=
  s.foldr
    (fun c acc =>
      (if c = ' ' then ['+']
       else if urlSafe c then [c]
       else (utf8Bytes c).foldr (fun b a => '%' :: hexDig (b / 16) :: hexDig (b % 16) :: a) [])
      ++ acc)
    []

/-- The query parameters `fetch_courses` sends to `GET /api/courses`
(app.py:238-240). `sort`/`tab` keep their dynamic values; `categoryId` is
present only when the argument passed the `isinstance(int) and > 0` guard. -/
structure CoursesParams where
  sort : JVal
  tab : JVal
  page : JVal
  size : JVal
  categoryId : Option JVal
deriving DecidableEq

/-- The query parameters `search_courses` sends to `GET /api/search/courses`
(app.py:291). -/
structure SearchParams where
  keyword : List Char
  page : Int
  size : Int
deriving DecidableEq

/-- `r.url` for a `/api/courses` request: base URL plus the encoded query
string in parameter insertion order. -/
def coursesUrl (api : List Char) (p : CoursesParams) : List Char :=
  api ++ cs "/api/courses?sort=" ++ urlEnc (pyStr p.sort)
    ++ cs "&tab=" ++ urlEnc (pyStr p.tab)
    ++ cs "&page=" ++ urlEnc (pyStr p.page)
    ++ cs "&size=" ++ urlEnc (pyStr p.size)
    ++ (match p.categoryId with
        | some c => cs "&categoryId=" ++ urlEnc (pyStr c)
        | none => [])

/-- `r.url` for a `/api/search/courses` request. -/
def searchUrl (api : List Char) (p : SearchParams) : List Char :=
  api ++ cs "/api/search/courses?keyword=" ++ urlEnc p.keyword
    ++ cs "&page=" ++ urlEnc (intStr p.page)
    ++ cs "&size=" ++ urlEnc (intStr p.size)

deriving instance DecidableEq for Except

/-- An HTTP response as the client code observes it: status, raw text body,
the outcome of `r.json()` (`Except` error text standing for the
`JSONDecodeError` message), and the `Content-Type` header. -/
structure HttpResp where
  status : Nat
  body : List Char
  json : Except (List Char) JVal
  contentType : Option (List Char)
deriving DecidableEq

/-- `r.ok` in `requests`: true for status codes below 400. -/
def HttpResp.isOk (r : HttpResp) : Bool := r.status < 400

/-- Outcome of an outbound `requests.get`: a response, or a raised
`requests.exceptions.Timeout` (the calls carry `timeout=10` and no
`try/except` around the request itself). -/
inductive HttpOutcome where
  | success (r : HttpResp)
  | timeout
deriving DecidableEq

/-- The external course-catalog service, as response oracles per endpoint. -/
structure Backend where
  courses : CoursesParams → HttpOutcome
  search : SearchParams → HttpOutcome
  categories : HttpOutcome

/-- `normalize_page`'s candidate scan (app.py:94-99): promote the first key
in order whose value is a list; otherwise `setdefault("items", [])`. -/
def normScan (fs : List (List Char × JVal)) : List (List Char) → JVal
  | [] => .obj (setdefault fs (cs "items") (.arr []))
  | key :: keys =>
    match getKey fs key with
    | some (.arr xs) => .obj (setKey fs (cs "items") (.arr xs))
    | _ => normScan fs keys

/-- `normalize_page` (app.py:89): coerce a backend page shape into one with
an `items` list. -/
def normalize_page : JVal → JVal
  | .obj fs =>
    match getKey fs (cs "items") with
    | some (.arr _) => .obj fs
    | _ => normScan fs [cs "content", cs "data", cs "list", cs "results"]
  | v => v

/-- The detail link computed for a course id value (app.py:112). -/
def detailUrl (web : List Char) (courseId : JVal) : List Char :=
  web ++ cs "/CourseDetail?courseId=" ++ pyStr courseId ++ cs "&tab=intro"

/-- The per-item body of `attach_detail_urls`' loop (app.py:105-113):
non-dicts pass through; for dicts, `courseId or id` resolves the link id and
a `detailUrl` is attached when that value is not `None`. -/
def attachItem (web : List Char) (it : JVal) : JVal :=
  match it with
  | .obj fs =>
    let courseId := pyOr (pyGet fs (cs "courseId")) (pyGet fs (cs "id"))
    if courseId ≠ .null then
      .obj (setKey fs (cs "detailUrl") (.str (detailUrl web courseId)))
    else
      .obj fs
  | v => v

/-- `attach_detail_urls` (app.py:101): decorate each structured item of a
list with its computed detail link; non-list inputs are returned unchanged. -/
def attach_detail_urls (web : List Char) : JVal → JVal
  | .arr xs => .arr (xs.map (attachItem web))
  | v => v

/-- Python `str.strip()`: drop whitespace from both ends. -/
def pyStrip (s : List Char) : List Char :=
  ((s.dropWhile Char.isWhitespace).reverse.dropWhile Char.isWhitespace).reverse

/-- Numeric value of a run of decimal digits (Python `int` on the matched
group). -/
def digitsToNat (ds : List Char) : Nat :=
  ds.foldl (fun a c => 10 * a + (c.toNat - 48)) 0

/-- Match of the regex alternative `#\s*(\d+)` at the start of the input:
returns the digit group and the rest after the match. The quantifiers are
greedy and, as the pattern ends right after them, never backtrack. Digits
and whitespace are modelled as ASCII digits and Unicode whitespace, which is
what the catalog traffic uses. -/
def matchAlt1 : List Char → Option (List Char × List Char)
  | [] => none
  | c :: rest =>
    if c = '#' then
      let afterSp := rest.dropWhile Char.isWhitespace
      let ds := afterSp.takeWhile Char.isDigit
      if ds.isEmpty then none else some (ds, afterSp.dropWhile Char.isDigit)
    else none

/-- Match of the regex alternative `(\d+)\s*번` at the start of the input. -/
def matchAlt2 (l : List Char) : Option (List Char × List Char) :=
  let ds := l.takeWhile Char.isDigit
  if ds.isEmpty then none
  else
    match (l.dropWhile Char.isDigit).dropWhile Char.isWhitespace with
    | c :: rest => if c = '번' then some (ds, rest) else none
    | [] => none

/-- Match of the full pattern `#\s*(\d+)|(\d+)\s*번` at the start of the
input, alternatives tried in order as Python's regex engine does. -/
def matchHintAt (l : List Char) : Option (List Char × List Char) :=
  match matchAlt1 l with
  | some r => some r
  | none => matchAlt2 l

/-- `re.search` for the hint pattern: the digits of the leftmost match
(`int(m.group(1) or m.group(2))` reads whichever group matched). -/
def searchHint : List Char → Option Nat
  | [] => none
  | c :: rest =>
    match matchHintAt (c :: rest) with
    | some (ds, _) => some (digitsToNat ds)
    | none => searchHint rest

/-- `re.sub` for the hint pattern with fuel: each step either removes one
non-overlapping leftmost match (which always consumes at least one
character) or keeps the head character, so fuel `length + 1` never runs
out. -/
def subHintAux : Nat → List Char → List Char
  | 0, l => l
  | _ + 1, [] => []
  | fuel + 1, c :: rest =>
    match matchHintAt (c :: rest) with
    | some (_, after) => subHintAux fuel after
    | none => c :: subHintAux fuel rest

/-- `re.sub(r"#\s*\d+|\d+\s*번", "", text)`: remove every match. -/
def subHint (l : List Char) : List Char := subHintAux (l.length + 1) l

/-- `normalize_search_keyword` (app.py:147): falsy input yields
`("", None)`; a string is scanned for the first `#n` / `n번` hint, and the
cleaned keyword is the text with all hint matches removed and stripped.
`re.search` on a non-string raises `TypeError`. -/
def normalize_search_keyword (text : JVal) : Except PyExn (List Char × Option Nat) :=
  if ¬ pyTruthy text then .ok ([], none)
  else
    match text with
    | .str s => .ok (pyStrip (subHint s), searchHint s)
    | _ => .error .typeError

/-- `str(it.get("title", ""))` for one item (app.py:168): items that are not
dicts raise `AttributeError` on `.get`. -/
def itemTitle (it : JVal) : Except PyExn (List Char) :=
  match it with
  | .obj fs => .ok (pyStr (getD fs (cs "title") (.str [])))
  | _ => .error .attributeError

/-- One pass of `match_item_by_hint`: first item whose title satisfies the
predicate, visiting items left to right. -/
def findByTitle (p : List Char → Bool) : List JVal → Except PyExn (Option JVal)
  | [] => .ok none
  | it :: rest => do
    let t ← itemTitle it
    if p t then .ok (some it) else findByTitle p rest

/-- `match_item_by_hint` (app.py:157): on a non-empty item list and non-zero
hint, try `#n` in the title, then `샘플 강의 n`, then the bare digits, first
match wins. -/
def match_item_by_hint (all_items : List JVal) (hint_no : Nat) : Except PyExn (Option JVal) :=
  if all_items.isEmpty || hint_no = 0 then .ok none
  else
    let hn := natStr hint_no
    do
      match ← findByTitle (fun t => pyIn ('#' :: hn) t) all_items with
      | some it => .ok (some it)
      | none =>
        match ← findByTitle (fun t => pyIn (cs "샘플 강의 " ++ hn) t) all_items with
        | some it => .ok (some it)
        | none => findByTitle (fun t => pyIn hn t) all_items

/-- An optional header/string value as a JSON value. -/
def optStr : Option (List Char) → JVal
  | some s => .str s
  | none => .null

/-- The query-parameter dict `fetch_courses` builds (app.py:238-240):
`categoryId` is included only when it is a positive int (Python `bool` is an
`int` subtype, so `True` passes the guard). -/
def coursesParamsOf (sort tab page size categoryId : JVal) : CoursesParams :=
  { sort := sort, tab := tab, page := page, size := size,
    categoryId :=
      match categoryId with
      | .num c => if 0 < c then some (.num c) else none
      | .bool b => if b then some (.bool b) else none
      | _ => none }

/-- `fetch_courses` (app.py:236): build the query, call the backend,
soft-fail on non-success status or a non-JSON body, else normalize the page
and attach detail links. A JSON body that is not an object reaches
`data.get`/`data["items"]` and raises `AttributeError`; a request timeout
propagates as a raised exception. -/
def fetch_courses (api web : List Char) (B : Backend)
    (sort tab page size categoryId : JVal) : Except PyExn JVal :=
  let params := coursesParamsOf sort tab page size categoryId
  match B.courses params with
  | .timeout => .error .timeoutError
  | .success r =>
    if ¬ r.isOk then
      .ok (.obj [(cs "error", .str (cs "COURSE_API_REQUEST_FAILED")),
                 (cs "status", .num r.status),
                 (cs "url", .str (coursesUrl api params)),
                 (cs "body", .str (sanitize_text (.str (r.body.take 1000))))])
    else
      match r.json with
      | .error je =>
        .ok (.obj [(cs "error", .str (cs "COURSE_API_NON_JSON_RESPONSE")),
                   (cs "detail", .str (sanitize_text (.str je))),
                   (cs "url", .str (coursesUrl api params)),
                   (cs "content_type", optStr r.contentType)])
      | .ok raw =>
        match normalize_page raw with
        | .obj fs =>
          .ok (.obj (setKey fs (cs "items")
                (attach_detail_urls web (getD fs (cs "items") (.arr [])))))
        | _ => .error .attributeError

/-- The page clamp of `_sanitize_list_params` (app.py:256); a missing or
`null` argument reaches the same `0` through the parameter default. -/
def sanitizePage (page : Int) : Int := if page < 0 then 0 else page

/-- The size clamp of `_sanitize_list_params` (app.py:257). -/
def sanitizeSize (size : Int) : Int := if size ≤ 0 || 50 < size then 12 else size

/-- The tab restriction of `_sanitize_list_params` (app.py:258): anything
outside `{"all", "free"}` (including non-strings) is forced to `"all"`. -/
def sanitizeTab (tab : JVal) : JVal :=
  match tab with
  | .str s => if s = cs "all" || s = cs "free" then .str s else .str (cs "all")
  | _ => .str (cs "all")

/-- `_sanitize_list_params` (app.py:255). -/
def sanitize_list_params (tab : JVal) (page size : Int) : JVal × Int × Int :=
  (sanitizeTab tab, sanitizePage page, sanitizeSize size)

/-- `get_popular_courses` (app.py:261). -/
def get_popular_courses (api web : List Char) (B : Backend)
    (tab : JVal) (page size : Int) : Except PyExn JVal :=
  match sanitize_list_params tab page size with
  | (t, p, s) => fetch_courses api web B (.str (cs "popular")) t (.num p) (.num s) .null

/-- `get_latest_courses` (app.py:265). -/
def get_latest_courses (api web : List Char) (B : Backend)
    (tab : JVal) (page size : Int) : Except PyExn JVal :=
  match sanitize_list_params tab page size with
  | (t, p, s) => fetch_courses api web B (.str (cs "latest")) t (.num p) (.num s) .null

/-- The `{"error": "INVALID_CATEGORY_ID"}` result. -/
def invalidCategoryObj : JVal := .obj [(cs "error", .str (cs "INVALID_CATEGORY_ID"))]

/-- The `categoryId is None or categoryId <= 0` guard of the by-category
operations: `None` and non-positive numbers are invalid; comparing a
non-number against `0` raises `TypeError`. -/
def categoryGuard (categoryId : JVal) : Except PyExn Bool :=
  match categoryId with
  | .null => .ok true
  | .num c => .ok (c ≤ 0)
  | .bool b => .ok (!b)
  | _ => .error .typeError

/-- `get_popular_courses_by_category` (app.py:269). -/
def get_popular_courses_by_category (api web : List Char) (B : Backend)
    (categoryId : JVal) (tab : JVal) (page size : Int) : Except PyExn JVal := do
  match sanitize_list_params tab page size with
  | (t, p, s) =>
    if ← categoryGuard categoryId then .ok invalidCategoryObj
    else fetch_courses api web B (.str (cs "popular")) t (.num p) (.num s) categoryId

/-- `get_latest_courses_by_category` (app.py:275). -/
def get_latest_courses_by_category (api web : List Char) (B : Backend)
    (categoryId : JVal) (tab : JVal) (page size : Int) : Except PyExn JVal := do
  match sanitize_list_params tab page size with
  | (t, p, s) =>
    if ← categoryGuard categoryId then .ok invalidCategoryObj
    else fetch_courses api web B (.str (cs "latest")) t (.num p) (.num s) categoryId

/-- The inline page clamp of `search_courses` (app.py:285): `None` or a
negative number becomes `0`; Python `bool` participates as its int value;
other types raise `TypeError` in the comparison. -/
def searchSanPage (page : JVal) : Except PyExn Int :=
  match page with
  | .null => .ok 0
  | .num n => .ok (if n < 0 then 0 else n)
  | .bool b => .ok (if b then 1 else 0)
  | _ => .error .typeError

/-- The inline size clamp of `search_courses` (app.py:286). -/
def searchSanSize (size : JVal) : Except PyExn Int :=
  match size with
  | .null => .ok 12
  | .num n => .ok (if n ≤ 0 || 50 < n then 12 else n)
  | .bool b => .ok (if b then 1 else 12)
  | _ => .error .typeError

/-- The paged branch of `search_courses` (app.py:318-329): client-side
offset/limit slicing of the full result list, detail links attached. -/
def searchPageResult (web : List Char) (all_items : List JVal)
    (page size : Int) (hint : Option Nat) (cleaned : List Char) : JVal :=
  let start := page * size
  .obj [(cs "items", attach_detail_urls web (.arr ((all_items.drop start.toNat).take size.toNat))),
        (cs "page", .num page),
        (cs "size", .num size),
        (cs "total", .num all_items.length),
        (cs "hintNo", match hint with | some n => .num n | none => .null),
        (cs "cleanedKeyword", .str cleaned)]

/-- `search_courses` (app.py:284): sanitize page/size, split the keyword
into cleaned text and numeric hint, call the search endpoint (which returns
a flat list), soft-fail on non-success status (`SEARCH_API_FAILED`) or a
non-JSON body, and short-circuit to a single-item page when the hint matches in
the full unsliced list; otherwise slice client-side. -/
def search_courses (api web : List Char) (B : Backend)
    (keyword page size : JVal) : Except PyExn JVal := do
  let page ← searchSanPage page
  let size ← searchSanSize size
  let (cleaned, hint) ← normalize_search_keyword keyword
  let params : SearchParams := ⟨cleaned, page, size⟩
  match B.search params with
  | .timeout => .error .timeoutError
  | .success r =>
    if ¬ r.isOk then
      .ok (.obj [(cs "error", .str (cs "SEARCH_API_FAILED")),
                 (cs "status", .num r.status),
                 (cs "url", .str (searchUrl api params)),
                 (cs "body", .str (sanitize_text (.str (r.body.take 1000))))])
    else
      match r.json with
      | .error je =>
        .ok (.obj [(cs "error", .str (cs "SEARCH_API_NON_JSON_RESPONSE")),
                   (cs "detail", .str (sanitize_text (.str je))),
                   (cs "url", .str (searchUrl api params)),
                   (cs "content_type", optStr r.contentType)])
      | .ok data =>
        let all_items := match data with | .arr xs => xs | _ => []
        match hint with
        | some n =>
          if 0 < n then
            match ← match_item_by_hint all_items n with
            | some matched =>
              .ok (.obj [(cs "items", attach_detail_urls web (.arr [matched])),
                         (cs "page", .num 0),
                         (cs "size", .num 1),
                         (cs "total", .num all_items.length),
                         (cs "hintNo", .num n),
                         (cs "cleanedKeyword", .str cleaned)])
            | none => .ok (searchPageResult web all_items page size hint cleaned)
          else .ok (searchPageResult web all_items page size hint cleaned)
        | none => .ok (searchPageResult web all_items page size hint cleaned)

/-- `debug_popular_raw` (app.py:331): delegates to `fetch_courses` with the
page and size passed through as-is — unlike the list operations it performs
no input sanitization. -/
def debug_popular_raw (api web : List Char) (B : Backend)
    (page size : Int) : Except PyExn JVal :=
  fetch_courses api web B (.str (cs "popular")) (.str (cs "all")) (.num page) (.num size) .null

/-- `get_categories` (app.py:208): any non-success status or undecodable or
non-list body degrades to `[]`; a timeout still raises. -/
def get_categories (B : Backend) : Except PyExn (List JVal) :=
  match B.categories with
  | .timeout => .error .timeoutError
  | .success r =>
    if ¬ r.isOk then .ok []
    else
      match r.json with
      | .error _ => .ok []
      | .ok (.arr xs) => .ok xs
      | .ok _ => .ok []

/-- Assoc update with Python-dict semantics for `JVal` keys (the
`name_map` comprehension keys are whatever `c.get("name")` returned). -/
def setKeyJ : List (JVal × JVal) → JVal → JVal → List (JVal × JVal)
  | [], k, v => [(k, v)]
  | (k', w) :: rest, k, v =>
    if k' = k then (k', v) :: rest else (k', w) :: setKeyJ rest k v

/-- Assoc lookup for `JVal` keys. -/
def getKeyJ : List (JVal × JVal) → JVal → Option JVal
  | [], _ => none
  | (k', v) :: rest, k => if k' = k then some v else getKeyJ rest k

/-- The `name_map` dict comprehension of `resolve_category_id`
(app.py:224-228): left-to-right insertion, entries lacking a truthy name or
a non-null id dropped, duplicate names overwriting in place; a non-dict
category raises `AttributeError`. -/
def buildNameMap (acc : List (JVal × JVal)) : List JVal → Except PyExn (List (JVal × JVal))
  | [] => .ok acc
  | c :: rest =>
    match c with
    | .obj fs =>
      let nm := pyGet fs (cs "name")
      let cid := pyGet fs (cs "categoryId")
      if pyTruthy nm && cid ≠ .null then buildNameMap (setKeyJ acc nm cid) rest
      else buildNameMap acc rest
    | _ => .error .attributeError

/-- `resolve_category_id` (app.py:219), with `difflib.get_close_matches(
name, names, n=1, cutoff=0.4)` abstracted as the oracle `cm` (its fuzzy
ratio is irrelevant to every claim; it returns at most one of `names`). -/
def resolve_category_id (B : Backend) (cm : JVal → List JVal → Option JVal)
    (categoryName : List Char) : Except PyExn JVal := do
  let categories ← get_categories B
  if categories.isEmpty then
    .ok (.obj [(cs "categoryId", .null), (cs "matchedName", .null)])
  else do
    let name_map ← buildNameMap [] categories
    let names := name_map.map Prod.fst
    match cm (.str categoryName) names with
    | none => .ok (.obj [(cs "categoryId", .null), (cs "matchedName", .null)])
    | some matched =>
      match getKeyJ name_map matched with
      | some cid => .ok (.obj [(cs "categoryId", cid), (cs "matchedName", matched)])
      | none => .error .keyError

/-- Python `d[k]` on a JSON value: `KeyError` when absent, `TypeError` when
not a dict. -/
def jGetIdx (v : JVal) (k : List Char) : Except PyExn JVal :=
  match v with
  | .obj fs =>
    match getKey fs k with
    | some x => .ok x
    | none => .error .keyError
  | _ => .error .typeError

/-- Python `d.get(k)` on a JSON value: `AttributeError` when not a dict. -/
def jGetOpt (v : JVal) (k : List Char) : Except PyExn JVal :=
  match v with
  | .obj fs => .ok (pyGet fs k)
  | _ => .error .attributeError

/-- Python `d[k] = w` on a JSON value. -/
def jSetKey (v : JVal) (k : List Char) (w : JVal) : Except PyExn JVal :=
  match v with
  | .obj fs => .ok (.obj (setKey fs k w))
  | _ => .error .typeError

/-- Python `v + 1` on a stored page value (`bool` adds as its int value). -/
def jAdd1 (v : JVal) : Except PyExn Int :=
  match v with
  | .num n => .ok (n + 1)
  | .bool b => .ok ((if b then 1 else 0) + 1)
  | _ => .error .typeError

/-- Tool-call arguments, typed per the JSON schema the tool registry
declares (app.py:347-372): every parameter is an optional int or string.
A missing field models both an absent and a `null` JSON argument. -/
structure ToolArgs where
  categoryName : Option (List Char) := none
  categoryId : Option Int := none
  tab : Option (List Char) := none
  page : Option Int := none
  size : Option Int := none
  keyword : Option (List Char) := none
deriving DecidableEq

/-- The per-session/turn mutable state `run_agent_turn` threads through the
tool loop: the session's `state["last_query"]` cursor (a dict or `None`) and
the turn-local `last_items`. -/
structure Ctx where
  last_query : JVal
  last_items : Option (List JVal)
deriving DecidableEq

/-- A fresh session's state (`{"last_query": None}`, no items yet). -/
def freshCtx : Ctx := ⟨.null, none⟩

/-- The cursor dict a list operation stores (app.py:439-446): raw argument
values, not the sanitized ones, with schema defaults for missing fields. -/
def listCursor (name : List Char) (args : ToolArgs) : JVal :=
  .obj [(cs "mode", .str (cs "list")),
        (cs "sort", .str (if pyIn (cs "popular") name then cs "popular" else cs "latest")),
        (cs "tab", match args.tab with | some t => .str t | none => .str (cs "all")),
        (cs "categoryId", match args.categoryId with | some c => .num c | none => .null),
        (cs "page", .num (args.page.getD 0)),
        (cs "size", .num (args.size.getD 12))]

/-- The cursor dict a search operation stores (app.py:448-455). -/
def searchCursor (args : ToolArgs) (result : JVal) : JVal :=
  .obj [(cs "mode", .str (cs "search")),
        (cs "keyword", match args.keyword with | some k => .str k | none => .null),
        (cs "page", .num (args.page.getD 0)),
        (cs "size", .num (args.size.getD 12)),
        (cs "hintNo", match result with | .obj fs => pyGet fs (cs "hintNo") | _ => .null),
        (cs "cleanedKeyword", match result with | .obj fs => pyGet fs (cs "cleanedKeyword") | _ => .null)]

/-- The `{"error": "NO_PREVIOUS_QUERY", ...}` result of `get_next_page` on a
session without a stored query (app.py:420). -/
def noPreviousQueryObj : JVal :=
  .obj [(cs "error", .str (cs "NO_PREVIOUS_QUERY")),
        (cs "detail", .str (cs "이전에 조회한 목록이 없습니다."))]

/-- The `FUNCTION_MAP` dispatch (`fn(**args)`, app.py:429-433) for one tool
name: `none` when the name is unknown. Required arguments that are missing
raise `TypeError` exactly as Python's keyword binding does. -/
def dispatchTool (api web : List Char) (B : Backend) (cm : JVal → List JVal → Option JVal)
    (name : List Char) (args : ToolArgs) : Option (Except PyExn JVal) :=
  let tabArg : JVal := match args.tab with | some t => .str t | none => .str (cs "all")
  let pageArg : Int := args.page.getD 0
  let sizeArg : Int := args.size.getD 12
  if name = cs "resolve_category_id" then
    some (match args.categoryName with
          | some nm => resolve_category_id B cm nm
          | none => .error .typeError)
  else if name = cs "get_popular_courses" then
    some (get_popular_courses api web B tabArg pageArg sizeArg)
  else if name = cs "get_latest_courses" then
    some (get_latest_courses api web B tabArg pageArg sizeArg)
  else if name = cs "get_popular_courses_by_category" then
    some (match args.categoryId with
          | some c => get_popular_courses_by_category api web B (.num c) tabArg pageArg sizeArg
          | none => .error .typeError)
  else if name = cs "get_latest_courses_by_category" then
    some (match args.categoryId with
          | some c => get_latest_courses_by_category api web B (.num c) tabArg pageArg sizeArg
          | none => .error .typeError)
  else if name = cs "search_courses" then
    some (match args.keyword with
          | some k => search_courses api web B (.str k) (.num pageArg) (.num sizeArg)
          | none => .error .typeError)
  else if name = cs "debug_popular_raw" then
    some (debug_popular_raw api web B pageArg sizeArg)
  else none

/-- Whether a tool name is one of the four list operations whose execution
overwrites the cursor with a list-mode dict (app.py:438). -/
def isListToolName (name : List Char) : Bool :=
  name = cs "get_popular_courses" || name = cs "get_latest_courses" ||
  name = cs "get_popular_courses_by_category" || name = cs "get_latest_courses_by_category"

/-- One tool execution of the agent loop (app.py:407-461): `get_next_page`
replays the stored cursor with `page + 1` and then increments the stored
page in place; other names dispatch through `FUNCTION_MAP` (unknown names
produce a soft error object), record the result's `items` list as the
turn's last item list, and overwrite the cursor when the name is a list or
search operation. A raised exception aborts the turn before any of the
state writes that follow it. -/
def handle_call (api web : List Char) (B : Backend) (cm : JVal → List JVal → Option JVal)
    (name : List Char) (args : ToolArgs) (ctx : Ctx) : Except PyExn (JVal × Ctx) :=
  if name = cs "get_next_page" then
    if ¬ pyTruthy ctx.last_query then .ok (noPreviousQueryObj, ctx)
    else do
      let modeV ← jGetOpt ctx.last_query (cs "mode")
      if modeV = .str (cs "search") then do
        let kw ← jGetIdx ctx.last_query (cs "keyword")
        let p1 ← jAdd1 (← jGetIdx ctx.last_query (cs "page"))
        let sz ← jGetIdx ctx.last_query (cs "size")
        let result ← search_courses api web B kw (.num p1) sz
        let newCur ← jSetKey ctx.last_query (cs "page") (.num p1)
        .ok (result, { ctx with last_query := newCur })
      else do
        let srt ← jGetIdx ctx.last_query (cs "sort")
        let tb ← jGetIdx ctx.last_query (cs "tab")
        let p1 ← jAdd1 (← jGetIdx ctx.last_query (cs "page"))
        let sz ← jGetIdx ctx.last_query (cs "size")
        let cid ← jGetOpt ctx.last_query (cs "categoryId")
        let result ← fetch_courses api web B srt tb (.num p1) sz cid
        let newCur ← jSetKey ctx.last_query (cs "page") (.num p1)
        .ok (result, { ctx with last_query := newCur })
  else
    match dispatchTool api web B cm name args with
    | none => .ok (.obj [(cs "error", .str (cs "Unknown function: " ++ name))], ctx)
    | some res => do
      let result ← res
      let ctx1 :=
        match result with
        | .obj fs =>
          match getKey fs (cs "items") with
          | some (.arr xs) => { ctx with last_items := some xs }
          | _ => ctx
        | _ => ctx
      let ctx2 :=
        if isListToolName name then { ctx1 with last_query := listCursor name args }
        else if name = cs "search_courses" then { ctx1 with last_query := searchCursor args result }
        else ctx1
      .ok (result, ctx2)

/-- An observable session-state transition: a tool execution inside a turn,
or the `/api/session/reset` endpoint clearing the cursor (app.py:529). -/
inductive Op where
  | tool (name : List Char) (args : ToolArgs)
  | reset

/-- Effect of one operation on the session state; an aborted (raising) tool
execution leaves the stored state as it was. -/
def stepOp (api web : List Char) (B : Backend) (cm : JVal → List JVal → Option JVal)
    (ctx : Ctx) : Op → Ctx
  | .tool name args =>
    match handle_call api web B cm name args ctx with
    | .ok (_, ctx') => ctx'
    | .error _ => ctx
  | .reset => { ctx with last_query := .null }

/-- All session states reachable from a fresh session are images of
`runOps`. -/
def runOps (api web : List Char) (B : Backend) (cm : JVal → List JVal → Option JVal) :
    List Op → Ctx → Ctx
  | [], ctx => ctx
  | op :: ops, ctx => runOps api web B cm ops (stepOp api web B cm ctx op)

/-- The cursor shape invariant of the spec's data model: `mode` determines
the carried fields — a list cursor carries `sort`/`tab`/`categoryId`/
`page`/`size` and no `keyword`; a search cursor carries `keyword`/`page`/
`size` and none of `sort`/`tab`/`categoryId`. -/
def cursorWF (c : JVal) : Bool :=
  match c with
  | .obj fs =>
    match getKey fs (cs "mode") with
    | some (.str m) =>
      if m = cs "list" then
        (getKey fs (cs "sort")).isSome && (getKey fs (cs "tab")).isSome &&
        (getKey fs (cs "categoryId")).isSome && (getKey fs (cs "page")).isSome &&
        (getKey fs (cs "size")).isSome && (getKey fs (cs "keyword")).isNone
      else if m = cs "search" then
        (getKey fs (cs "keyword")).isSome && (getKey fs (cs "page")).isSome &&
        (getKey fs (cs "size")).isSome && (getKey fs (cs "sort")).isNone &&
        (getKey fs (cs "tab")).isNone && (getKey fs (cs "categoryId")).isNone
      else false
    | _ => false
  | _ => false

/-- Python `s.replace(pat, rep)` with fuel: each step either removes one
leftmost occurrence (the patterns used are non-empty, so a match consumes at
least one character) or keeps the head, so fuel `length + 1` never runs
out. The replacement is not rescanned, as in Python. -/
def replaceAllAux (pat rep : List Char) : Nat → List Char → List Char
  | 0, s => s
  | _ + 1, [] => []
  | fuel + 1, c :: rest =>
    if pat.isPrefixOf (c :: rest) then
      rep ++ replaceAllAux pat rep fuel ((c :: rest).drop pat.length)
    else c :: replaceAllAux pat rep fuel rest

/-- Python `s.replace(pat, rep)`. -/
def replaceAll (s pat rep : List Char) : List Char :=
  replaceAllAux pat rep (s.length + 1) s

/-- `re.sub(r"\n{3,}", "\n\n", t)` with fuel: every maximal run of three or
more newlines collapses to two. -/
def collapseNLAux : Nat → List Char → List Char
  | 0, s => s
  | _ + 1, [] => []
  | fuel + 1, c :: rest =>
    if c = '\n' then
      let run := 1 + (rest.takeWhile (fun x => x == '\n')).length
      let after := rest.dropWhile (fun x => x == '\n')
      (if 3 ≤ run then cs "\n\n" else List.replicate run '\n') ++ collapseNLAux fuel after
    else c :: collapseNLAux fuel rest

/-- `re.sub(r"\n{3,}", "\n\n", t)`. -/
def collapseNL (s : List Char) : List Char := collapseNLAux (s.length + 1) s

/-- `prettify_multiline_reply` (app.py:129): newline touch-ups applied to a
reply when no item cards accompany it. -/
def prettify_multiline_reply (text : List Char) : List Char :=
  if text.isEmpty then text
  else
    let t := pyStrip text
    let t := replaceAll t (cs "강의에 대해 알려드릴게요.") (cs "강의에 대해 알려드릴게요.\n")
    let t := replaceAll t (cs "### 강의 정보") (cs "\n강의 정보\n")
    let t := replaceAll t (cs "- **제목**:") (cs "\n- 제목:")
    let t := replaceAll t (cs "- **설명**:") (cs "\n- 설명:")
    let t := replaceAll t (cs "- **가격**:") (cs "\n- 가격:")
    let t := replaceAll t (cs "- **상태**:") (cs "\n- 상태:")
    let t := replaceAll t (cs "- **링크**:") (cs "\n- 바로 보기:")
    let t := replaceAll t (cs "궁금한 점이 더 있으시면") (cs "\n\n궁금한 점이 더 있으시면")
    pyStrip (collapseNL t)

/-- The boundary layer of `chat` (app.py:519-525): a truthy (non-empty) item
list forces one of the two fixed templated replies; otherwise the model's
prose is kept, newline-prettified. -/
def build_reply (reply : List Char) (items : Option (List JVal)) : List Char :=
  match items with
  | some its =>
    if its.isEmpty then prettify_multiline_reply reply
    else if its.length = 1 then cs "요청하신 강의예요 👇 아래 카드에서 확인해 보세요."
    else cs "관련 강의 " ++ natStr its.length ++ cs "개를 찾았어요 👇 아래 카드에서 골라보세요."
  | none => prettify_multiline_reply reply

/-- The first key among `content`/`data`/`list`/`results` whose value is a
list — the claim's candidate scan, phrased via `findSome?`. -/
def firstCandidateList (fs : List (List Char × JVal)) : Option (List JVal) :=
  [cs "content", cs "data", cs "list", cs "results"].findSome?
    (fun k => match getKey fs k with | some (.arr xs) => some xs | _ => none)

/-- The normalizer as the amended claim words it: non-dicts unchanged;
a list-valued `items` is canonical; else the first candidate list is
promoted; else `items` is set to `[]` only when the key is absent, a
pre-existing non-list `items` value being left in place. -/
def normalize_page_spec (v : JVal) : JVal :=
  match v with
  | .obj fs =>
    match getKey fs (cs "items") with
    | some (.arr _) => .obj fs
    | _ =>
      match firstCandidateList fs with
      | some xs => .obj (setKey fs (cs "items") (.arr xs))
      | none =>
        if (getKey fs (cs "items")).isSome then .obj fs
        else .obj (fs ++ [(cs "items", .arr [])])
  | v => v

/-- Detail-link attachment as claim C8 words it: the link id is the
`courseId` field whenever that key is present, else the `id` field; a link
is attached exactly when one of the two keys is present. -/
def attachItemClaim (web : List Char) (it : JVal) : JVal :=
  match it with
  | .obj fs =>
    match (match getKey fs (cs "courseId") with
           | some cv => some cv
           | none => getKey fs (cs "id")) with
    | some idv => .obj (setKey fs (cs "detailUrl") (.str (detailUrl web idv)))
    | none => .obj fs
  | v => v

/-- `attach_detail_urls` as claim C8 words it. -/
def attach_detail_urls_claim (web : List Char) : JVal → JVal
  | .arr xs => .arr (xs.map (attachItemClaim web))
  | v => v

/-- Detail-link attachment as the amended claim words it: the link id is
`courseId` when that field is present with a truthy value, otherwise the
`id` field's value (`null` when absent); a link is attached exactly when the
resolved value is non-null. -/
def attachItemAmended (web : List Char) (it : JVal) : JVal :=
  match it with
  | .obj fs =>
    let cv := pyGet fs (cs "courseId")
    let resolved := if pyTruthy cv then cv else pyGet fs (cs "id")
    if resolved = .null then .obj fs
    else .obj (setKey fs (cs "detailUrl") (.str (detailUrl web resolved)))
  | v => v

/-- `attach_detail_urls` as the amended claim words it. -/
def attach_detail_urls_amended (web : List Char) : JVal → JVal
  | .arr xs => .arr (xs.map (attachItemAmended web))
  | v => v

/-- The seven tool names registered in `FUNCTION_MAP` (app.py:337-345). -/
def isFunctionMapName (name : List Char) : Bool :=
  name = cs "resolve_category_id" || name = cs "get_popular_courses" ||
  name = cs "get_latest_courses" || name = cs "get_popular_courses_by_category" ||
  name = cs "get_latest_courses_by_category" || name = cs "search_courses" ||
  name = cs "debug_popular_raw"

/-- The structured item list carried by a tool result, when the result is a
dict with a list-valued `items` (the condition of app.py:435). -/
def resultItems (res : JVal) : Option (List JVal) :=
  match res with
  | .obj fs =>
    match getKey fs (cs "items") with
    | some (.arr xs) => some xs
    | _ => none
  | _ => none

/-- A demo catalog of `n` items titled `#1` … `#n`, used to instantiate the
hint-matching theorems on concrete data. -/
def sampleItems (n : Nat) : List JVal :=
  (List.range n).map (fun i => .obj [(cs "title", .str ('#' :: natStr (i + 1)))])

/-- The cursor part of the reachable-state invariant: no query stored yet,
or a well-shaped cursor. -/
def cursorInv (c : JVal) : Prop := c = .null ∨ cursorWF c = true

theorem getKey_setKey_ne (fs : List (List Char × JVal)) (k k' : List Char) (v : JVal)
    (h : k ≠ k') : getKey (setKey fs k v) k' = getKey fs k' := by
  induction fs with
  | nil => simp [setKey, getKey, h]
  | cons kv rest ih =>
    obtain ⟨a, b⟩ := kv
    by_cases ha : a = k
    · subst ha
      simp [setKey, getKey, h]
    · simp only [setKey, getKey, if_neg ha]
      by_cases ha' : a = k'
      · simp [getKey, ha']
      · simp [getKey, ha', ih]

theorem pyGet_setKey_ne (fs : List (List Char × JVal)) (k k' : List Char) (v : JVal)
    (h : k ≠ k') : pyGet (setKey fs k v) k' = pyGet fs k' := by
  simp [pyGet, getD, getKey_setKey_ne fs k k' v h]

theorem setKey_setKey_same (fs : List (List Char × JVal)) (k : List Char) (v w : JVal) :
    setKey (setKey fs k v) k w = setKey fs k w := by
  induction fs with
  | nil => simp [setKey]
  | cons kv rest ih =>
    obtain ⟨a, b⟩ := kv
    by_cases ha : a = k <;> simp [setKey, ha, ih]

theorem attachItem_idem (web : List Char) (it : JVal) :
    attachItem web (attachItem web it) = attachItem web it := by
  cases it with
  | obj fs =>
    by_cases h : pyOr (pyGet fs (cs "courseId")) (pyGet fs (cs "id")) = JVal.null
    · simp [attachItem, h]
    · have hc : pyGet (setKey fs (cs "detailUrl")
          (.str (detailUrl web (pyOr (pyGet fs (cs "courseId")) (pyGet fs (cs "id"))))))
          (cs "courseId") = pyGet fs (cs "courseId") :=
        pyGet_setKey_ne _ _ _ _ (by decide)
      have hi : pyGet (setKey fs (cs "detailUrl")
          (.str (detailUrl web (pyOr (pyGet fs (cs "courseId")) (pyGet fs (cs "id"))))))
          (cs "id") = pyGet fs (cs "id") :=
        pyGet_setKey_ne _ _ _ _ (by decide)
      simp [attachItem, h, hc, hi, setKey_setKey_same]
  | null => rfl
  | bool b => rfl
  | num n => rfl
  | str s => rfl
  | arr xs => rfl

/-- C9: detail-link attachment is idempotent — re-applying
`attach_detail_urls` to an already-decorated value recomputes the same
`detailUrl` and changes nothing. -/
theorem c9_attach_detail_urls_idempotent (web : List Char) (x : JVal) :
    attach_detail_urls web (attach_detail_urls web x) = attach_detail_urls web x := by
  cases x with
  | arr xs =>
    simp only [attach_detail_urls, List.map_map]
    exact congrArg JVal.arr (List.map_congr_left (fun a _ => attachItem_idem web a))
  | null => rfl
  | bool b => rfl
  | num n => rfl
  | str s => rfl
  | obj fs => rfl

theorem attachItem_eq_amended (web : List Char) (it : JVal) :
    attachItem web it = attachItemAmended web it := by
  cases it with
  | obj fs =>
    simp only [attachItem, attachItemAmended, pyOr]
    by_cases h : (if pyTruthy (pyGet fs (cs "courseId")) then pyGet fs (cs "courseId")
        else pyGet fs (cs "id")) = JVal.null
    · simp [h]
    · simp [h]
  | null => rfl
  | bool b => rfl
  | num n => rfl
  | str s => rfl
  | arr xs => rfl

/-- C8 counterexample: on an item whose `courseId` is present but `0` (a
falsy value) with `id = 5`, the code's `courseId or id` resolution links to
`courseId=5`, while the claim's "courseId if present else id" rule demands
`courseId=0`. -/
theorem c8_counterexample :
    attach_detail_urls (cs "http://localhost:8080")
        (.arr [.obj [(cs "courseId", .num 0), (cs "id", .num 5)]])
      = .arr [.obj [(cs "courseId", .num 0), (cs "id", .num 5),
          (cs "detailUrl", .str (cs "http://localhost:8080/CourseDetail?courseId=5&tab=intro"))]]
    ∧ attach_detail_urls (cs "http://localhost:8080")
        (.arr [.obj [(cs "courseId", .num 0), (cs "id", .num 5)]])
      ≠ attach_detail_urls_claim (cs "http://localhost:8080")
        (.arr [.obj [(cs "courseId", .num 0), (cs "id", .num 5)]]) := by
  exact ⟨by decide, by decide⟩

/-- C8 amended: the link id is `courseId` when that field is present with a
truthy value, otherwise the `id` field's value; a `detailUrl` is attached
exactly when the resolved value is non-null, items resolving to null are
passed through without a link, and non-object entries pass through
unmodified. -/
theorem c8_attach_detail_urls_amended (web : List Char) (x : JVal) :
    attach_detail_urls web x = attach_detail_urls_amended web x := by
  cases x with
  | arr xs =>
    exact congrArg JVal.arr (List.map_congr_left (fun a _ => attachItem_eq_amended web a))
  | null => rfl
  | bool b => rfl
  | num n => rfl
  | str s => rfl
  | obj fs => rfl

theorem normScan_eq (fs : List (List Char × JVal)) (ks : List (List Char)) :
    normScan fs ks =
      match ks.findSome?
          (fun k => match getKey fs k with | some (.arr xs) => some xs | _ => none) with
      | some xs => .obj (setKey fs (cs "items") (.arr xs))
      | none => .obj (setdefault fs (cs "items") (.arr [])) := by
  induction ks with
  | nil => simp [normScan]
  | cons k ks ih =>
    simp only [normScan, List.findSome?_cons]
    cases hk : getKey fs k with
    | none => simpa [hk] using ih
    | some v => cases v <;> simp [hk, ih]

/-- C4 counterexample: on a dict whose `items` value is present but not a
list and that has no candidate key, `setdefault` leaves the non-list value
in place — `items` is not set to the empty list as the claim states. -/
theorem c4_counterexample :
    normalize_page (.obj [(cs "items", .num 5)]) = .obj [(cs "items", .num 5)]
    ∧ normalize_page (.obj [(cs "items", .num 5)]) ≠ .obj [(cs "items", .arr [])] :=
  ⟨by decide, by decide⟩

/-- C4 amended: non-dicts are returned unchanged; a list-valued `items` is
canonical; otherwise the earliest of `content`/`data`/`list`/`results`
holding a list is promoted to `items`; when no candidate holds a list,
`items` is set to the empty list only if the key is absent, and a
pre-existing non-list `items` value is left in place — never an error. -/
theorem c4_normalize_page_spec (v : JVal) :
    normalize_page v = normalize_page_spec v := by
  cases v with
  | obj fs =>
    simp only [normalize_page, normalize_page_spec, firstCandidateList]
    cases hit : getKey fs (cs "items") with
    | some w => cases w <;> simp [hit, normScan_eq, setdefault]
    | none => simp [hit, normScan_eq, setdefault]
  | null => rfl
  | bool b => rfl
  | num n => rfl
  | str s => rfl
  | arr xs => rfl

theorem sanitizePage_neg {p : Int} (h : p < 0) : sanitizePage p = sanitizePage 0 := by
  simp [sanitizePage, h]

theorem sanitizeSize_out {s : Int} (h : s ≤ 0 ∨ 50 < s) : sanitizeSize s = sanitizeSize 12 := by
  rcases h with h | h <;> simp [sanitizeSize] <;> omega

theorem sanitizeTab_other {tab : JVal} (h1 : tab ≠ .str (cs "all")) (h2 : tab ≠ .str (cs "free")) :
    sanitizeTab tab = sanitizeTab (.str (cs "all")) := by
  cases tab with
  | str t =>
    have ht1 : t ≠ cs "all" := fun e => h1 (by rw [e])
    have ht2 : t ≠ cs "free" := fun e => h2 (by rw [e])
    simp [sanitizeTab, ht1, ht2]
  | null => rfl
  | bool b => rfl
  | num n => rfl
  | arr xs => rfl
  | obj fs => rfl

/-- C5 counterexample: `debug_popular_raw` performs no input sanitization —
called with page `-1` it sends the request with `page=-1` (visible in the
failing result's url) instead of the claimed effective page `0`. -/
theorem c5_counterexample :
    debug_popular_raw (cs "http://localhost:8080") (cs "w")
        { courses := fun _ => .success ⟨500, cs "boom", .error (cs "x"), none⟩,
          search := fun _ => .timeout, categories := .timeout } (-1) 12
      = .ok (.obj [(cs "error", .str (cs "COURSE_API_REQUEST_FAILED")),
                   (cs "status", .num 500),
                   (cs "url", .str (cs "http://localhost:8080/api/courses?sort=popular&tab=all&page=-1&size=12")),
                   (cs "body", .str (cs "boom"))])
    ∧ debug_popular_raw (cs "http://localhost:8080") (cs "w")
        { courses := fun _ => .success ⟨500, cs "boom", .error (cs "x"), none⟩,
          search := fun _ => .timeout, categories := .timeout } (-1) 12
      ≠ debug_popular_raw (cs "http://localhost:8080") (cs "w")
        { courses := fun _ => .success ⟨500, cs "boom", .error (cs "x"), none⟩,
          search := fun _ => .timeout, categories := .timeout } 0 12 :=
  ⟨by decide, by decide⟩

/-- C5 amended: ListPopular, ListLatest, the two by-category variants and
Search share the input sanitization (negative page → 0; non-positive or
over-50 size → 12; tab outside `{all, free}` → all, where tab applies),
while DebugRaw forwards its page and size to the request unchanged. -/
theorem c5_sanitization (api web : List Char) (B : Backend)
    (tab cid psz ssz kw : JVal) (p s : Int) :
    (p < 0 → get_popular_courses api web B tab p s = get_popular_courses api web B tab 0 s)
    ∧ (s ≤ 0 ∨ 50 < s →
        get_popular_courses api web B tab p s = get_popular_courses api web B tab p 12)
    ∧ (tab ≠ .str (cs "all") → tab ≠ .str (cs "free") →
        get_popular_courses api web B tab p s
          = get_popular_courses api web B (.str (cs "all")) p s)
    ∧ (p < 0 → get_latest_courses api web B tab p s = get_latest_courses api web B tab 0 s)
    ∧ (s ≤ 0 ∨ 50 < s →
        get_latest_courses api web B tab p s = get_latest_courses api web B tab p 12)
    ∧ (tab ≠ .str (cs "all") → tab ≠ .str (cs "free") →
        get_latest_courses api web B tab p s
          = get_latest_courses api web B (.str (cs "all")) p s)
    ∧ (p < 0 → get_popular_courses_by_category api web B cid tab p s
        = get_popular_courses_by_category api web B cid tab 0 s)
    ∧ (s ≤ 0 ∨ 50 < s → get_popular_courses_by_category api web B cid tab p s
        = get_popular_courses_by_category api web B cid tab p 12)
    ∧ (tab ≠ .str (cs "all") → tab ≠ .str (cs "free") →
        get_popular_courses_by_category api web B cid tab p s
          = get_popular_courses_by_category api web B cid (.str (cs "all")) p s)
    ∧ (p < 0 → get_latest_courses_by_category api web B cid tab p s
        = get_latest_courses_by_category api web B cid tab 0 s)
    ∧ (s ≤ 0 ∨ 50 < s → get_latest_courses_by_category api web B cid tab p s
        = get_latest_courses_by_category api web B cid tab p 12)
    ∧ (tab ≠ .str (cs "all") → tab ≠ .str (cs "free") →
        get_latest_courses_by_category api web B cid tab p s
          = get_latest_courses_by_category api web B cid (.str (cs "all")) p s)
    ∧ (p < 0 → search_courses api web B kw (.num p) ssz
        = search_courses api web B kw (.num 0) ssz)
    ∧ (s ≤ 0 ∨ 50 < s → search_courses api web B kw psz (.num s)
        = search_courses api web B kw psz (.num 12))
    ∧ (debug_popular_raw api web B p s
        = fetch_courses api web B (.str (cs "popular")) (.str (cs "all"))
            (.num p) (.num s) .null) := by
  refine ⟨?_, ?_, ?_, ?_, ?_, ?_, ?_, ?_, ?_, ?_, ?_, ?_, ?_, ?_, rfl⟩
  · intro h
    simp [get_popular_courses, sanitize_list_params, sanitizePage_neg h]
  · intro h
    simp [get_popular_courses, sanitize_list_params, sanitizeSize_out h]
  · intro h1 h2
    simp [get_popular_courses, sanitize_list_params, sanitizeTab_other h1 h2]
  · intro h
    simp [get_latest_courses, sanitize_list_params, sanitizePage_neg h]
  · intro h
    simp [get_latest_courses, sanitize_list_params, sanitizeSize_out h]
  · intro h1 h2
    simp [get_latest_courses, sanitize_list_params, sanitizeTab_other h1 h2]
  · intro h
    simp [get_popular_courses_by_category, sanitize_list_params, sanitizePage_neg h]
  · intro h
    simp [get_popular_courses_by_category, sanitize_list_params, sanitizeSize_out h]
  · intro h1 h2
    simp [get_popular_courses_by_category, sanitize_list_params, sanitizeTab_other h1 h2]
  · intro h
    simp [get_latest_courses_by_category, sanitize_list_params, sanitizePage_neg h]
  · intro h
    simp [get_latest_courses_by_category, sanitize_list_params, sanitizeSize_out h]
  · intro h1 h2
    simp [get_latest_courses_by_category, sanitize_list_params, sanitizeTab_other h1 h2]
  · intro h
    simp [search_courses, searchSanPage, h]
  · intro h
    have : searchSanSize (.num s) = searchSanSize (.num 12) := by
      rcases h with h | h <;> simp [searchSanSize] <;> omega
    simp [search_courses, this]

/-- C5 witness: the sanitization equalities instantiated at page `-1`,
size `51`, and tab `"zzz"` against a concrete backend. -/
theorem c5_sanitization_witness :
    (get_popular_courses (cs "a") (cs "w")
        { courses := fun _ => .timeout, search := fun _ => .timeout, categories := .timeout }
        (.str (cs "zzz")) (-1) 51
      = get_popular_courses (cs "a") (cs "w")
        { courses := fun _ => .timeout, search := fun _ => .timeout, categories := .timeout }
        (.str (cs "zzz")) 0 51)
    ∧ (get_latest_courses (cs "a") (cs "w")
        { courses := fun _ => .timeout, search := fun _ => .timeout, categories := .timeout }
        (.str (cs "zzz")) (-1) 51
      = get_latest_courses (cs "a") (cs "w")
        { courses := fun _ => .timeout, search := fun _ => .timeout, categories := .timeout }
        (.str (cs "zzz")) (-1) 12)
    ∧ (get_popular_courses_by_category (cs "a") (cs "w")
        { courses := fun _ => .timeout, search := fun _ => .timeout, categories := .timeout }
        (.num 3) (.str (cs "zzz")) (-1) 51
      = get_popular_courses_by_category (cs "a") (cs "w")
        { courses := fun _ => .timeout, search := fun _ => .timeout, categories := .timeout }
        (.num 3) (.str (cs "all")) (-1) 51)
    ∧ (get_latest_courses_by_category (cs "a") (cs "w")
        { courses := fun _ => .timeout, search := fun _ => .timeout, categories := .timeout }
        (.num 3) (.str (cs "zzz")) (-1) 51
      = get_latest_courses_by_category (cs "a") (cs "w")
        { courses := fun _ => .timeout, search := fun _ => .timeout, categories := .timeout }
        (.num 3) (.str (cs "zzz")) 0 51)
    ∧ (search_courses (cs "a") (cs "w")
        { courses := fun _ => .timeout, search := fun _ => .timeout, categories := .timeout }
        (.str (cs "k")) (.num (-1)) (.num 12)
      = search_courses (cs "a") (cs "w")
        { courses := fun _ => .timeout, search := fun _ => .timeout, categories := .timeout }
        (.str (cs "k")) (.num 0) (.num 12))
    ∧ (search_courses (cs "a") (cs "w")
        { courses := fun _ => .timeout, search := fun _ => .timeout, categories := .timeout }
        (.str (cs "k")) (.num 0) (.num 51)
      = search_courses (cs "a") (cs "w")
        { courses := fun _ => .timeout, search := fun _ => .timeout, categories := .timeout }
        (.str (cs "k")) (.num 0) (.num 12)) :=
  ⟨(c5_sanitization (cs "a") (cs "w") _ (.str (cs "zzz")) (.num 3) (.num 0) (.num 12)
      (.str (cs "k")) (-1) 51).1 (by norm_num),
   ((c5_sanitization (cs "a") (cs "w") _ (.str (cs "zzz")) (.num 3) (.num 0) (.num 12)
      (.str (cs "k")) (-1) 51).2.2.2.2.1 (Or.inr (by norm_num))),
   ((c5_sanitization (cs "a") (cs "w") _ (.str (cs "zzz")) (.num 3) (.num 0) (.num 12)
      (.str (cs "k")) (-1) 51).2.2.2.2.2.2.2.2.1 (by decide) (by decide)),
   ((c5_sanitization (cs "a") (cs "w") _ (.str (cs "zzz")) (.num 3) (.num 0) (.num 12)
      (.str (cs "k")) (-1) 51).2.2.2.2.2.2.2.2.2.1 (by norm_num)),
   ((c5_sanitization (cs "a") (cs "w") _ (.str (cs "zzz")) (.num 3) (.num 0) (.num 12)
      (.str (cs "k")) (-1) 51).2.2.2.2.2.2.2.2.2.2.2.2.1 (by norm_num)),
   ((c5_sanitization (cs "a") (cs "w") _ (.str (cs "zzz")) (.num 3) (.num 0) (.num 12)
      (.str (cs "k")) (-1) 51).2.2.2.2.2.2.2.2.2.2.2.2.2.1 (Or.inr (by norm_num)))⟩

/-- C3 counterexample: a failing search status is reported as
`SEARCH_API_FAILED`, which does not match the claimed `*_REQUEST_FAILED`
pattern, and an HTTP timeout of an outbound catalog call raises (aborting
the turn) instead of producing a soft result. -/
theorem c3_counterexample :
    search_courses (cs "http://localhost:8080") (cs "w")
        { courses := fun _ => .timeout,
          search := fun _ => .success ⟨500, cs "oops", .error (cs "x"), none⟩,
          categories := .timeout }
        (.str (cs "java")) (.num 0) (.num 12)
      = .ok (.obj [(cs "error", .str (cs "SEARCH_API_FAILED")),
                   (cs "status", .num 500),
                   (cs "url", .str (cs "http://localhost:8080/api/search/courses?keyword=java&page=0&size=12")),
                   (cs "body", .str (cs "oops"))])
    ∧ (cs "_REQUEST_FAILED").isSuffixOf (cs "SEARCH_API_FAILED") = false
    ∧ fetch_courses (cs "http://localhost:8080") (cs "w")
        { courses := fun _ => .timeout, search := fun _ => .timeout, categories := .timeout }
        (.str (cs "popular")) (.str (cs "all")) (.num 0) (.num 12) .null
      = .error .timeoutError :=
  ⟨by decide, by decide, by decide⟩

/-- C3 amended: for every catalog operation a non-success HTTP status or a
non-JSON body never raises — the list/by-category/debug path reports
`COURSE_API_REQUEST_FAILED` / `COURSE_API_NON_JSON_RESPONSE` and the search
path `SEARCH_API_FAILED` / `SEARCH_API_NON_JSON_RESPONSE`, each with
diagnostic context (status, url, truncated body / decode detail) — while an
HTTP timeout raises out of the operation instead of being converted to a
soft result. The facade operations all delegate to these two fetch paths. -/
theorem c3_soft_failure (api web : List Char) (B : Backend) (r : HttpResp)
    (sort tab page size cid kw psz ssz : JVal) (ck : List Char) (hint : Option Nat)
    (p' s' : Int) (je : List Char) :
    (B.courses (coursesParamsOf sort tab page size cid) = .success r →
      (¬ (r.status < 400) →
        fetch_courses api web B sort tab page size cid
          = .ok (.obj [(cs "error", .str (cs "COURSE_API_REQUEST_FAILED")),
                       (cs "status", .num r.status),
                       (cs "url", .str (coursesUrl api (coursesParamsOf sort tab page size cid))),
                       (cs "body", .str (r.body.take 1000))]))
      ∧ (r.status < 400 → r.json = .error je →
        fetch_courses api web B sort tab page size cid
          = .ok (.obj [(cs "error", .str (cs "COURSE_API_NON_JSON_RESPONSE")),
                       (cs "detail", .str je),
                       (cs "url", .str (coursesUrl api (coursesParamsOf sort tab page size cid))),
                       (cs "content_type", optStr r.contentType)])))
    ∧ (B.courses (coursesParamsOf sort tab page size cid) = .timeout →
        fetch_courses api web B sort tab page size cid = .error .timeoutError)
    ∧ (searchSanPage psz = .ok p' → searchSanSize ssz = .ok s' →
       normalize_search_keyword kw = .ok (ck, hint) →
       ((B.search ⟨ck, p', s'⟩ = .success r →
         (¬ (r.status < 400) →
           search_courses api web B kw psz ssz
             = .ok (.obj [(cs "error", .str (cs "SEARCH_API_FAILED")),
                          (cs "status", .num r.status),
                          (cs "url", .str (searchUrl api ⟨ck, p', s'⟩)),
                          (cs "body", .str (r.body.take 1000))]))
         ∧ (r.status < 400 → r.json = .error je →
           search_courses api web B kw psz ssz
             = .ok (.obj [(cs "error", .str (cs "SEARCH_API_NON_JSON_RESPONSE")),
                          (cs "detail", .str je),
                          (cs "url", .str (searchUrl api ⟨ck, p', s'⟩)),
                          (cs "content_type", optStr r.contentType)])))
       ∧ (B.search ⟨ck, p', s'⟩ = .timeout →
           search_courses api web B kw psz ssz = .error .timeoutError)))
    ∧ (∀ t : JVal, ∀ pI sI : Int, get_popular_courses api web B t pI sI
        = fetch_courses api web B (.str (cs "popular")) (sanitizeTab t)
            (.num (sanitizePage pI)) (.num (sanitizeSize sI)) .null)
    ∧ (∀ t : JVal, ∀ pI sI : Int, get_latest_courses api web B t pI sI
        = fetch_courses api web B (.str (cs "latest")) (sanitizeTab t)
            (.num (sanitizePage pI)) (.num (sanitizeSize sI)) .null)
    ∧ (∀ c : Int, ∀ t : JVal, ∀ pI sI : Int, 0 < c →
        get_popular_courses_by_category api web B (.num c) t pI sI
          = fetch_courses api web B (.str (cs "popular")) (sanitizeTab t)
              (.num (sanitizePage pI)) (.num (sanitizeSize sI)) (.num c))
    ∧ (∀ c : Int, ∀ t : JVal, ∀ pI sI : Int, 0 < c →
        get_latest_courses_by_category api web B (.num c) t pI sI
          = fetch_courses api web B (.str (cs "latest")) (sanitizeTab t)
              (.num (sanitizePage pI)) (.num (sanitizeSize sI)) (.num c))
    ∧ (∀ pI sI : Int, debug_popular_raw api web B pI sI
        = fetch_courses api web B (.str (cs "popular")) (.str (cs "all"))
            (.num pI) (.num sI) .null) := by
  refine ⟨fun hB => ⟨fun hno => ?_, fun hok hje => ?_⟩, fun hB => ?_,
          fun hp hs hk => ⟨fun hB => ⟨fun hno => ?_, fun hok hje => ?_⟩, fun hB => ?_⟩,
          fun t pI sI => rfl, fun t pI sI => rfl,
          fun c t pI sI hc => ?_, fun c t pI sI hc => ?_, fun pI sI => rfl⟩
  · simp [fetch_courses, hB, HttpResp.isOk, hno, sanitize_text]
  · simp [fetch_courses, hB, HttpResp.isOk, hok, hje, sanitize_text]
  · simp [fetch_courses, hB]
  · simp [search_courses, bind, Except.bind, hp, hs, hk, hB, HttpResp.isOk, hno, sanitize_text]
  · simp [search_courses, bind, Except.bind, hp, hs, hk, hB, HttpResp.isOk, hok, hje,
      sanitize_text]
  · simp [search_courses, bind, Except.bind, hp, hs, hk, hB]
  · have : ¬ (c ≤ 0) := by omega
    simp [get_popular_courses_by_category, sanitize_list_params, categoryGuard, this,
      bind, Except.bind]
  · have : ¬ (c ≤ 0) := by omega
    simp [get_latest_courses_by_category, sanitize_list_params, categoryGuard, this,
      bind, Except.bind]

/-- C3 witness: the soft-failure theorem instantiated on a 500 response, a
200 response with an undecodable body, and timeouts of both endpoints. -/
theorem c3_soft_failure_witness :
    (fetch_courses (cs "a") (cs "w")
        { courses := fun _ => .success ⟨500, cs "zz", .error (cs "j"), none⟩,
          search := fun _ => .success ⟨500, cs "zz", .error (cs "j"), none⟩,
          categories := .timeout }
        (.str (cs "popular")) (.str (cs "all")) (.num 0) (.num 12) .null
      = .ok (.obj [(cs "error", .str (cs "COURSE_API_REQUEST_FAILED")),
                   (cs "status", .num 500),
                   (cs "url", .str (coursesUrl (cs "a")
                     (coursesParamsOf (.str (cs "popular")) (.str (cs "all"))
                       (.num 0) (.num 12) .null))),
                   (cs "body", .str ((cs "zz").take 1000))]))
    ∧ (fetch_courses (cs "a") (cs "w")
        { courses := fun _ => .success ⟨200, cs "zz", .error (cs "j"), some (cs "text/html")⟩,
          search := fun _ => .timeout, categories := .timeout }
        (.str (cs "popular")) (.str (cs "all")) (.num 0) (.num 12) .null
      = .ok (.obj [(cs "error", .str (cs "COURSE_API_NON_JSON_RESPONSE")),
                   (cs "detail", .str (cs "j")),
                   (cs "url", .str (coursesUrl (cs "a")
                     (coursesParamsOf (.str (cs "popular")) (.str (cs "all"))
                       (.num 0) (.num 12) .null))),
                   (cs "content_type", optStr (some (cs "text/html")))]))
    ∧ (search_courses (cs "a") (cs "w")
        { courses := fun _ => .timeout,
          search := fun _ => .success ⟨500, cs "zz", .error (cs "j"), none⟩,
          categories := .timeout }
        (.str (cs "java")) (.num 0) (.num 12)
      = .ok (.obj [(cs "error", .str (cs "SEARCH_API_FAILED")),
                   (cs "status", .num 500),
                   (cs "url", .str (searchUrl (cs "a") ⟨cs "java", 0, 12⟩)),
                   (cs "body", .str ((cs "zz").take 1000))]))
    ∧ (search_courses (cs "a") (cs "w")
        { courses := fun _ => .timeout, search := fun _ => .timeout, categories := .timeout }
        (.str (cs "java")) (.num 0) (.num 12)
      = .error .timeoutError) := by
  refine ⟨?_, ?_, ?_, ?_⟩
  · exact ((c3_soft_failure (cs "a") (cs "w")
      { courses := fun _ => .success ⟨500, cs "zz", .error (cs "j"), none⟩,
        search := fun _ => .success ⟨500, cs "zz", .error (cs "j"), none⟩,
        categories := .timeout } ⟨500, cs "zz", .error (cs "j"), none⟩
      (.str (cs "popular")) (.str (cs "all")) (.num 0) (.num 12) .null
      (.str (cs "java")) (.num 0) (.num 12) (cs "java") none 0 12 (cs "j")).1 rfl).1 (by decide)
  · exact ((c3_soft_failure (cs "a") (cs "w")
      { courses := fun _ => .success ⟨200, cs "zz", .error (cs "j"), some (cs "text/html")⟩,
        search := fun _ => .timeout, categories := .timeout }
      ⟨200, cs "zz", .error (cs "j"), some (cs "text/html")⟩
      (.str (cs "popular")) (.str (cs "all")) (.num 0) (.num 12) .null
      (.str (cs "java")) (.num 0) (.num 12) (cs "java") none 0 12 (cs "j")).1 rfl).2
      (by decide) rfl
  · exact (((c3_soft_failure (cs "a") (cs "w")
      { courses := fun _ => .timeout,
        search := fun _ => .success ⟨500, cs "zz", .error (cs "j"), none⟩,
        categories := .timeout } ⟨500, cs "zz", .error (cs "j"), none⟩
      (.str (cs "popular")) (.str (cs "all")) (.num 0) (.num 12) .null
      (.str (cs "java")) (.num 0) (.num 12) (cs "java") none 0 12 (cs "j")).2.2.1
      (by decide) (by decide) (by decide)).1 rfl).1 (by decide)
  · exact ((c3_soft_failure (cs "a") (cs "w")
      { courses := fun _ => .timeout, search := fun _ => .timeout, categories := .timeout }
      ⟨500, cs "zz", .error (cs "j"), none⟩
      (.str (cs "popular")) (.str (cs "all")) (.num 0) (.num 12) .null
      (.str (cs "java")) (.num 0) (.num 12) (cs "java") none 0 12 (cs "j")).2.2.1
      (by decide) (by decide) (by decide)).2 rfl

/-- C1: when the search keyword carries a positive numeric hint and
`match_item_by_hint` finds an item in the full unsliced backend result list,
`search_courses` short-circuits pagination and returns exactly that one item
with `page = 0`, `size = 1`, `total` the full unsliced count, and the hint
number and cleaned keyword attached — for every requested page and size,
including when the matched item lies beyond the requested slice. -/
theorem c1_hint_short_circuit (api web : List Char) (B : Backend)
    (kw ck : List Char) (n : Nat) (psz ssz : JVal) (p' s' : Int)
    (items : List JVal) (it : JVal) (r : HttpResp)
    (hp : searchSanPage psz = .ok p') (hs : searchSanSize ssz = .ok s')
    (hk : normalize_search_keyword (.str kw) = .ok (ck, some n))
    (hn : 0 < n)
    (hb : B.search ⟨ck, p', s'⟩ = .success r)
    (hok : r.status < 400)
    (hj : r.json = .ok (.arr items))
    (hm : match_item_by_hint items n = .ok (some it)) :
    search_courses api web B (.str kw) psz ssz
      = .ok (.obj [(cs "items", attach_detail_urls web (.arr [it])),
                   (cs "page", .num 0),
                   (cs "size", .num 1),
                   (cs "total", .num items.length),
                   (cs "hintNo", .num n),
                   (cs "cleanedKeyword", .str ck)]) := by
  simp [search_courses, bind, Except.bind, hp, hs, hk, hb, HttpResp.isOk, hok, hj, hn, hm]

/-- C1 witness: a catalog of 14 items titled `#1` … `#14` searched with
keyword `"#13 강의"` at page 0, size 12: item `#13` would fall outside the
first page slice, yet the hint short-circuit returns exactly it. -/
theorem c1_hint_short_circuit_witness :
    search_courses (cs "a") (cs "w")
      { courses := fun _ => .timeout,
        search := fun _ => .success ⟨200, [], .ok (.arr (sampleItems 14)), none⟩,
        categories := .timeout }
      (.str (cs "#13 강의")) (.num 0) (.num 12)
    = .ok (.obj [(cs "items", attach_detail_urls (cs "w")
                    (.arr [.obj [(cs "title", .str (cs "#13"))]])),
                 (cs "page", .num 0),
                 (cs "size", .num 1),
                 (cs "total", .num (sampleItems 14).length),
                 (cs "hintNo", .num 13),
                 (cs "cleanedKeyword", .str (cs "강의"))]) :=
  c1_hint_short_circuit (cs "a") (cs "w")
    { courses := fun _ => .timeout,
      search := fun _ => .success ⟨200, [], .ok (.arr (sampleItems 14)), none⟩,
      categories := .timeout }
    (cs "#13 강의") (cs "강의") 13 (.num 0) (.num 12) 0 12
    (sampleItems 14) (.obj [(cs "title", .str (cs "#13"))])
    ⟨200, [], .ok (.arr (sampleItems 14)), none⟩
    (by decide) (by decide) (by decide) (by decide) rfl (by decide) rfl (by decide)

theorem bind_ok_inv {γ α β : Type} (x : Except γ α) {f : α → Except γ β} {b : β}
    (h : x >>= f = .ok b) : ∃ a, x = .ok a ∧ f a = .ok b := by
  cases x with
  | error e => simp [bind, Except.bind] at h
  | ok a => exact ⟨a, rfl, by simpa [bind, Except.bind] using h⟩

theorem handle_next_on_list_cursor (api web : List Char) (B : Backend)
    (cm : JVal → List JVal → Option JVal) (nargs : ToolArgs) (ctx : Ctx)
    (srt tb cid : JVal) (p sz : Int) (r2 : JVal)
    (hq : ctx.last_query
      = .obj [(cs "mode", .str (cs "list")), (cs "sort", srt), (cs "tab", tb),
              (cs "categoryId", cid), (cs "page", .num p), (cs "size", .num sz)])
    (hf : fetch_courses api web B srt tb (.num (p + 1)) (.num sz) cid = .ok r2) :
    handle_call api web B cm (cs "get_next_page") nargs ctx
      = .ok (r2, { ctx with last_query := (JVal.obj
          [(cs "mode", .str (cs "list")), (cs "sort", srt), (cs "tab", tb),
           (cs "categoryId", cid), (cs "page", .num (p + 1)), (cs "size", .num sz)]) }) := by
  obtain ⟨lq, li⟩ := ctx
  replace hq : lq = JVal.obj
      [(cs "mode", .str (cs "list")), (cs "sort", srt), (cs "tab", tb),
       (cs "categoryId", cid), (cs "page", .num p), (cs "size", .num sz)] := hq
  subst hq
  show Except.bind (fetch_courses api web B srt tb (.num (p + 1)) (.num sz) cid)
      (fun result => Except.ok (result, (⟨JVal.obj
        [(cs "mode", .str (cs "list")), (cs "sort", srt), (cs "tab", tb),
         (cs "categoryId", cid), (cs "page", .num (p + 1)), (cs "size", .num sz)], li⟩ : Ctx)))
    = Except.ok (r2, (⟨JVal.obj
        [(cs "mode", .str (cs "list")), (cs "sort", srt), (cs "tab", tb),
         (cs "categoryId", cid), (cs "page", .num (p + 1)), (cs "size", .num sz)], li⟩ : Ctx))
  rw [hf]
  rfl

/-- C2: on a fresh session `get_next_page` yields the `NO_PREVIOUS_QUERY`
soft error; after a successful `get_popular_courses(tab=free, page=2)` the
stored cursor records that query, and `get_next_page` re-fetches the same
sort/tab/categoryId/size with page incremented to 3, incrementing the stored
cursor's `page` in place so every other field survives unchanged. -/
theorem c2_next_page_cursor (api web : List Char) (B : Backend)
    (cm : JVal → List JVal → Option JVal) (nargs : ToolArgs) (ctx : Ctx)
    (res1 r2 : JVal) (ctx1 : Ctx)
    (h1 : handle_call api web B cm (cs "get_popular_courses")
        { tab := some (cs "free"), page := some 2 } ctx = .ok (res1, ctx1))
    (h2 : fetch_courses api web B (.str (cs "popular")) (.str (cs "free"))
        (.num 3) (.num 12) .null = .ok r2) :
    (handle_call api web B cm (cs "get_next_page") nargs freshCtx
        = .ok (noPreviousQueryObj, freshCtx))
    ∧ ctx1.last_query
        = .obj [(cs "mode", .str (cs "list")), (cs "sort", .str (cs "popular")),
                (cs "tab", .str (cs "free")), (cs "categoryId", .null),
                (cs "page", .num 2), (cs "size", .num 12)]
    ∧ handle_call api web B cm (cs "get_next_page") nargs ctx1
        = .ok (r2, { ctx1 with last_query := (JVal.obj
            [(cs "mode", .str (cs "list")), (cs "sort", .str (cs "popular")),
             (cs "tab", .str (cs "free")), (cs "categoryId", .null),
             (cs "page", .num 3), (cs "size", .num 12)]) }) := by
  obtain ⟨v, hv, hcont⟩ :=
    bind_ok_inv (get_popular_courses api web B (.str (cs "free")) 2 12) h1
  have hb : ctx1.last_query
      = .obj [(cs "mode", .str (cs "list")), (cs "sort", .str (cs "popular")),
              (cs "tab", .str (cs "free")), (cs "categoryId", .null),
              (cs "page", .num 2), (cs "size", .num 12)] := by
    injection hcont with h'
    injection h' with ha hb
    rw [← hb]
    exact rfl
  refine ⟨rfl, hb, ?_⟩
  have := handle_next_on_list_cursor api web B cm nargs ctx1
    (.str (cs "popular")) (.str (cs "free")) .null 2 12 r2 hb h2
  exact this

/-- C2 witness: the cursor lifecycle exercised against a concrete backend —
after `get_popular_courses(tab=free, page=2)` succeeded, `get_next_page`
returns the page-3 fetch result and the stored cursor with only its `page`
field changed. -/
theorem c2_next_page_cursor_witness :
    handle_call (cs "a") (cs "w")
      { courses := fun _ => .success ⟨200, [], .ok (.obj [(cs "content", .arr [])]), none⟩,
        search := fun _ => .timeout, categories := .timeout }
      (fun _ _ => none) (cs "get_next_page") {}
      (⟨JVal.obj
          [(cs "mode", .str (cs "list")), (cs "sort", .str (cs "popular")),
           (cs "tab", .str (cs "free")), (cs "categoryId", .null),
           (cs "page", .num 2), (cs "size", .num 12)], some []⟩)
      = .ok (.obj [(cs "content", .arr []), (cs "items", .arr [])],
          ⟨JVal.obj
            [(cs "mode", .str (cs "list")), (cs "sort", .str (cs "popular")),
             (cs "tab", .str (cs "free")), (cs "categoryId", .null),
             (cs "page", .num 3), (cs "size", .num 12)], some []⟩) :=
  (c2_next_page_cursor (cs "a") (cs "w")
    { courses := fun _ => .success ⟨200, [], .ok (.obj [(cs "content", .arr [])]), none⟩,
      search := fun _ => .timeout, categories := .timeout }
    (fun _ _ => none) {} freshCtx
    (.obj [(cs "content", .arr []), (cs "items", .arr [])])
    (.obj [(cs "content", .arr []), (cs "items", .arr [])])
    (⟨JVal.obj
        [(cs "mode", .str (cs "list")), (cs "sort", .str (cs "popular")),
         (cs "tab", .str (cs "free")), (cs "categoryId", .null),
         (cs "page", .num 2), (cs "size", .num 12)], some []⟩)
    (by decide) (by decide)).2.2

theorem bind_ok_inv_imp {γ α β : Type} {x : Except γ α} {f : α → Except γ β} {b : β}
    (h : x >>= f = .ok b) : ∃ a, x = .ok a ∧ f a = .ok b :=
  bind_ok_inv x h

theorem last_items_update (ctx : Ctx) (v : JVal) :
    (match v with
      | JVal.obj fs =>
        match getKey fs (cs "items") with
        | some (JVal.arr xs) => { ctx with last_items := some xs }
        | _ => ctx
      | _ => ctx).last_items
    = match resultItems v with
      | some xs => some xs
      | none => ctx.last_items := by
  cases v with
  | obj fs =>
    cases h : getKey fs (cs "items") with
    | none => simp [resultItems, h]
    | some w => cases w <;> simp [resultItems, h]
  | null => rfl
  | bool b => rfl
  | num n => rfl
  | str s => rfl
  | arr xs => rfl

theorem handle_next_last_items (api web : List Char) (B : Backend)
    (cm : JVal → List JVal → Option JVal) (args : ToolArgs) (ctx : Ctx)
    (res : JVal) (ctx' : Ctx)
    (h : handle_call api web B cm (cs "get_next_page") args ctx = .ok (res, ctx')) :
    ctx'.last_items = ctx.last_items := by
  unfold handle_call at h
  rw [if_pos rfl] at h
  by_cases htr : pyTruthy ctx.last_query = true
  · rw [if_neg (not_not_intro htr)] at h
    obtain ⟨m, hm, h⟩ := bind_ok_inv_imp h
    by_cases hms : m = JVal.str (cs "search")
    · rw [if_pos hms] at h
      obtain ⟨_, _, h⟩ := bind_ok_inv_imp h
      obtain ⟨_, _, h⟩ := bind_ok_inv_imp h
      obtain ⟨_, _, h⟩ := bind_ok_inv_imp h
      obtain ⟨_, _, h⟩ := bind_ok_inv_imp h
      obtain ⟨_, _, h⟩ := bind_ok_inv_imp h
      obtain ⟨_, _, h⟩ := bind_ok_inv_imp h
      injection h with h'
      injection h' with hres hctx
      rw [← hctx]
    · rw [if_neg hms] at h
      obtain ⟨_, _, h⟩ := bind_ok_inv_imp h
      obtain ⟨_, _, h⟩ := bind_ok_inv_imp h
      obtain ⟨_, _, h⟩ := bind_ok_inv_imp h
      obtain ⟨_, _, h⟩ := bind_ok_inv_imp h
      obtain ⟨_, _, h⟩ := bind_ok_inv_imp h
      obtain ⟨_, _, h⟩ := bind_ok_inv_imp h
      obtain ⟨_, _, h⟩ := bind_ok_inv_imp h
      obtain ⟨_, _, h⟩ := bind_ok_inv_imp h
      injection h with h'
      injection h' with hres hctx
      rw [← hctx]
  · rw [if_pos htr] at h
    injection h with h'
    injection h' with hres hctx
    rw [← hctx]

/-- C6 counterexample: a `get_next_page` execution whose result carries a
structured item list (the empty second page) does not update the turn's
last item list — the recording at app.py:435 sits in the `FUNCTION_MAP`
branch only, so the claim's "after each tool execution" fails for the
next-page pseudo-tool. -/
theorem c6_counterexample :
    (handle_call (cs "a") (cs "w")
        { courses := fun _ => .timeout,
          search := fun _ =>
            .success ⟨200, [], .ok (.arr [.obj [(cs "title", .str (cs "a"))]]), none⟩,
          categories := .timeout }
        (fun _ _ => none) (cs "search_courses") { keyword := some (cs "자바") } freshCtx
      = .ok (.obj [(cs "items", .arr [.obj [(cs "title", .str (cs "a"))]]),
                   (cs "page", .num 0), (cs "size", .num 12), (cs "total", .num 1),
                   (cs "hintNo", .null), (cs "cleanedKeyword", .str (cs "자바"))],
          ⟨JVal.obj [(cs "mode", .str (cs "search")), (cs "keyword", .str (cs "자바")),
                     (cs "page", .num 0), (cs "size", .num 12), (cs "hintNo", .null),
                     (cs "cleanedKeyword", .str (cs "자바"))],
           some [.obj [(cs "title", .str (cs "a"))]]⟩))
    ∧ (handle_call (cs "a") (cs "w")
        { courses := fun _ => .timeout,
          search := fun _ =>
            .success ⟨200, [], .ok (.arr [.obj [(cs "title", .str (cs "a"))]]), none⟩,
          categories := .timeout }
        (fun _ _ => none) (cs "get_next_page") {}
        (⟨JVal.obj [(cs "mode", .str (cs "search")), (cs "keyword", .str (cs "자바")),
                    (cs "page", .num 0), (cs "size", .num 12), (cs "hintNo", .null),
                    (cs "cleanedKeyword", .str (cs "자바"))],
          some [.obj [(cs "title", .str (cs "a"))]]⟩)
      = .ok (.obj [(cs "items", .arr []),
                   (cs "page", .num 1), (cs "size", .num 12), (cs "total", .num 1),
                   (cs "hintNo", .null), (cs "cleanedKeyword", .str (cs "자바"))],
          ⟨JVal.obj [(cs "mode", .str (cs "search")), (cs "keyword", .str (cs "자바")),
                     (cs "page", .num 1), (cs "size", .num 12), (cs "hintNo", .null),
                     (cs "cleanedKeyword", .str (cs "자바"))],
           some [.obj [(cs "title", .str (cs "a"))]]⟩))
    ∧ resultItems (.obj [(cs "items", .arr []),
                   (cs "page", .num 1), (cs "size", .num 12), (cs "total", .num 1),
                   (cs "hintNo", .null), (cs "cleanedKeyword", .str (cs "자바"))])
        = some []
    ∧ (some [JVal.obj [(cs "title", .str (cs "a"))]] ≠ some ([] : List JVal)) :=
  ⟨by decide, by decide, by decide, by decide⟩

/-- C6 amended: after each `FUNCTION_MAP` tool execution (the seven facade
operations) whose result carries a structured item list, that list becomes
the turn's last item list, and one without such a list leaves it unchanged;
a `get_next_page` execution never changes it; and whenever the turn ends
with a non-empty last item list, the boundary layer replaces the model's
free text with the fixed one-item or N-items templated acknowledgement. -/
theorem c6_last_items_and_reply (api web : List Char) (B : Backend)
    (cm : JVal → List JVal → Option JVal) (name : List Char) (args : ToolArgs)
    (ctx : Ctx) (res : JVal) (ctx' : Ctx) :
    (isFunctionMapName name = true →
      handle_call api web B cm name args ctx = .ok (res, ctx') →
      ctx'.last_items = (match resultItems res with
        | some xs => some xs
        | none => ctx.last_items))
    ∧ (handle_call api web B cm (cs "get_next_page") args ctx = .ok (res, ctx') →
        ctx'.last_items = ctx.last_items)
    ∧ (∀ reply : List Char, ∀ its : List JVal, its ≠ [] →
        build_reply reply (some its)
          = if its.length = 1 then cs "요청하신 강의예요 👇 아래 카드에서 확인해 보세요."
            else cs "관련 강의 " ++ natStr its.length
              ++ cs "개를 찾았어요 👇 아래 카드에서 골라보세요.") := by
  refine ⟨?_, ?_, ?_⟩
  · intro hname h
    simp only [isFunctionMapName, Bool.or_eq_true, decide_eq_true_eq] at hname
    rcases hname with ((((((h1 | h1) | h1) | h1) | h1) | h1) | h1) <;>
      (subst h1
       obtain ⟨v, hv, hcont⟩ := bind_ok_inv_imp h
       injection hcont with h'
       injection h' with hres hctx
       rw [← hctx, ← hres]
       exact last_items_update ctx v)
  · exact handle_next_last_items api web B cm args ctx res ctx'
  · intro reply its hne
    match its with
    | [] => exact absurd rfl hne
    | a :: l =>
      by_cases hlen : (a :: l).length = 1 <;>
        simp [build_reply, List.isEmpty, hlen]

/-- C6 witness: the recording and templating rules at concrete inputs — a
facade search records its one-item list, `get_next_page` leaves the record
unchanged, and the boundary layer templates one- and two-item replies. -/
theorem c6_last_items_and_reply_witness :
    ((⟨JVal.obj [(cs "mode", .str (cs "search")), (cs "keyword", .str (cs "자바")),
                 (cs "page", .num 0), (cs "size", .num 12), (cs "hintNo", .null),
                 (cs "cleanedKeyword", .str (cs "자바"))],
       some [JVal.obj [(cs "title", .str (cs "a"))]]⟩ : Ctx).last_items
      = match resultItems (.obj [(cs "items", .arr [.obj [(cs "title", .str (cs "a"))]]),
          (cs "page", .num 0), (cs "size", .num 12), (cs "total", .num 1),
          (cs "hintNo", .null), (cs "cleanedKeyword", .str (cs "자바"))]) with
        | some xs => some xs
        | none => (freshCtx : Ctx).last_items)
    ∧ ((⟨JVal.obj [(cs "mode", .str (cs "search")), (cs "keyword", .str (cs "자바")),
                   (cs "page", .num 1), (cs "size", .num 12), (cs "hintNo", .null),
                   (cs "cleanedKeyword", .str (cs "자바"))],
        some [JVal.obj [(cs "title", .str (cs "a"))]]⟩ : Ctx).last_items
      = (⟨JVal.obj [(cs "mode", .str (cs "search")), (cs "keyword", .str (cs "자바")),
                    (cs "page", .num 0), (cs "size", .num 12), (cs "hintNo", .null),
                    (cs "cleanedKeyword", .str (cs "자바"))],
         some [JVal.obj [(cs "title", .str (cs "a"))]]⟩ : Ctx).last_items)
    ∧ (build_reply (cs "x") (some [JVal.null])
        = if ([JVal.null] : List JVal).length = 1
          then cs "요청하신 강의예요 👇 아래 카드에서 확인해 보세요."
          else cs "관련 강의 " ++ natStr ([JVal.null] : List JVal).length
            ++ cs "개를 찾았어요 👇 아래 카드에서 골라보세요.") := by
  refine ⟨?_, ?_, ?_⟩
  · exact (c6_last_items_and_reply (cs "a") (cs "w")
      { courses := fun _ => .timeout,
        search := fun _ =>
          .success ⟨200, [], .ok (.arr [.obj [(cs "title", .str (cs "a"))]]), none⟩,
        categories := .timeout }
      (fun _ _ => none) (cs "search_courses") { keyword := some (cs "자바") } freshCtx
      (.obj [(cs "items", .arr [.obj [(cs "title", .str (cs "a"))]]),
             (cs "page", .num 0), (cs "size", .num 12), (cs "total", .num 1),
             (cs "hintNo", .null), (cs "cleanedKeyword", .str (cs "자바"))])
      (⟨JVal.obj [(cs "mode", .str (cs "search")), (cs "keyword", .str (cs "자바")),
                  (cs "page", .num 0), (cs "size", .num 12), (cs "hintNo", .null),
                  (cs "cleanedKeyword", .str (cs "자바"))],
        some [JVal.obj [(cs "title", .str (cs "a"))]]⟩)).1 (by decide) (by decide)
  · exact (c6_last_items_and_reply (cs "a") (cs "w")
      { courses := fun _ => .timeout,
        search := fun _ =>
          .success ⟨200, [], .ok (.arr [.obj [(cs "title", .str (cs "a"))]]), none⟩,
        categories := .timeout }
      (fun _ _ => none) (cs "get_next_page") {}
      (⟨JVal.obj [(cs "mode", .str (cs "search")), (cs "keyword", .str (cs "자바")),
                  (cs "page", .num 0), (cs "size", .num 12), (cs "hintNo", .null),
                  (cs "cleanedKeyword", .str (cs "자바"))],
        some [JVal.obj [(cs "title", .str (cs "a"))]]⟩)
      (.obj [(cs "items", .arr []),
             (cs "page", .num 1), (cs "size", .num 12), (cs "total", .num 1),
             (cs "hintNo", .null), (cs "cleanedKeyword", .str (cs "자바"))])
      (⟨JVal.obj [(cs "mode", .str (cs "search")), (cs "keyword", .str (cs "자바")),
                  (cs "page", .num 1), (cs "size", .num 12), (cs "hintNo", .null),
                  (cs "cleanedKeyword", .str (cs "자바"))],
        some [JVal.obj [(cs "title", .str (cs "a"))]]⟩)).2.1 (by decide)
  · exact (c6_last_items_and_reply (cs "a") (cs "w")
      { courses := fun _ => .timeout, search := fun _ => .timeout, categories := .timeout }
      (fun _ _ => none) (cs "x") {} freshCtx .null freshCtx).2.2
      (cs "x") [JVal.null] (by decide)

theorem getKey_setKey_self (fs : List (List Char × JVal)) (k : List Char) (v : JVal) :
    getKey (setKey fs k v) k = some v := by
  induction fs with
  | nil => simp [setKey, getKey]
  | cons kv rest ih =>
    obtain ⟨a, b⟩ := kv
    by_cases ha : a = k <;> simp [setKey, getKey, ha, ih]

theorem cursorWF_obj {c : JVal} (h : cursorWF c = true) : ∃ fs, c = .obj fs := by
  cases c with
  | obj fs => exact ⟨fs, rfl⟩
  | null => exact absurd h (by simp [cursorWF])
  | bool b => exact absurd h (by simp [cursorWF])
  | num n => exact absurd h (by simp [cursorWF])
  | str s => exact absurd h (by simp [cursorWF])
  | arr xs => exact absurd h (by simp [cursorWF])

theorem cursorWF_listCursor (name : List Char) (args : ToolArgs) :
    cursorWF (listCursor name args) = true := rfl

theorem cursorWF_searchCursor (args : ToolArgs) (result : JVal) :
    cursorWF (searchCursor args result) = true := rfl

theorem cursorWF_setPage (fs : List (List Char × JVal)) (v : JVal)
    (h : cursorWF (.obj fs) = true) :
    cursorWF (.obj (setKey fs (cs "page") v)) = true := by
  simp only [cursorWF] at h ⊢
  rw [getKey_setKey_ne _ _ _ _ (show cs "page" ≠ cs "mode" by decide)]
  cases hm : getKey fs (cs "mode") with
  | none => rw [hm] at h; exact absurd h (by simp)
  | some w =>
    cases w with
    | str m =>
      simp only [hm] at h ⊢
      by_cases hl : m = cs "list"
      · rw [if_pos hl] at h ⊢
        rw [getKey_setKey_ne _ _ _ _ (show cs "page" ≠ cs "sort" by decide),
            getKey_setKey_ne _ _ _ _ (show cs "page" ≠ cs "tab" by decide),
            getKey_setKey_ne _ _ _ _ (show cs "page" ≠ cs "categoryId" by decide),
            getKey_setKey_self,
            getKey_setKey_ne _ _ _ _ (show cs "page" ≠ cs "size" by decide),
            getKey_setKey_ne _ _ _ _ (show cs "page" ≠ cs "keyword" by decide)]
        simp only [Bool.and_eq_true] at h ⊢
        exact ⟨⟨⟨⟨⟨h.1.1.1.1.1, h.1.1.1.1.2⟩, h.1.1.1.2⟩, rfl⟩, h.1.2⟩, h.2⟩
      · rw [if_neg hl] at h ⊢
        by_cases hs : m = cs "search"
        · rw [if_pos hs] at h ⊢
          rw [getKey_setKey_ne _ _ _ _ (show cs "page" ≠ cs "keyword" by decide),
              getKey_setKey_self,
              getKey_setKey_ne _ _ _ _ (show cs "page" ≠ cs "size" by decide),
              getKey_setKey_ne _ _ _ _ (show cs "page" ≠ cs "sort" by decide),
              getKey_setKey_ne _ _ _ _ (show cs "page" ≠ cs "tab" by decide),
              getKey_setKey_ne _ _ _ _ (show cs "page" ≠ cs "categoryId" by decide)]
          simp only [Bool.and_eq_true] at h ⊢
          exact ⟨⟨⟨⟨⟨h.1.1.1.1.1, rfl⟩, h.1.1.1.2⟩, h.1.1.2⟩, h.1.2⟩, h.2⟩
        · rw [if_neg hs] at h
          exact absurd h (by simp)
    | null => rw [hm] at h; exact absurd h (by simp)
    | bool b => rw [hm] at h; exact absurd h (by simp)
    | num n => rw [hm] at h; exact absurd h (by simp)
    | arr xs => rw [hm] at h; exact absurd h (by simp)
    | obj gs => rw [hm] at h; exact absurd h (by simp)

theorem last_query_update (ctx : Ctx) (v : JVal) :
    (match v with
      | JVal.obj fs =>
        match getKey fs (cs "items") with
        | some (JVal.arr xs) => { ctx with last_items := some xs }
        | _ => ctx
      | _ => ctx).last_query = ctx.last_query := by
  cases v with
  | obj fs =>
    cases h : getKey fs (cs "items") with
    | none => simp [h]
    | some w => cases w <;> simp [h]
  | null => rfl
  | bool b => rfl
  | num n => rfl
  | str s => rfl
  | arr xs => rfl

theorem handle_call_cursorInv (api web : List Char) (B : Backend)
    (cm : JVal → List JVal → Option JVal) (name : List Char) (args : ToolArgs)
    (ctx : Ctx) (res : JVal) (ctx' : Ctx)
    (hinv : cursorInv ctx.last_query)
    (h : handle_call api web B cm name args ctx = .ok (res, ctx')) :
    cursorInv ctx'.last_query := by
  by_cases hn : name = cs "get_next_page"
  · subst hn
    unfold handle_call at h
    rw [if_pos rfl] at h
    by_cases htr : pyTruthy ctx.last_query = true
    · have hwf : cursorWF ctx.last_query = true := by
        rcases hinv with hnull | hwf
        · rw [hnull] at htr; exact absurd htr (by decide)
        · exact hwf
      obtain ⟨fs, hfs⟩ := cursorWF_obj hwf
      rw [hfs] at h hwf
      rw [if_neg (not_not_intro (hfs ▸ htr))] at h
      obtain ⟨m, hm, h⟩ := bind_ok_inv_imp h
      by_cases hms : m = JVal.str (cs "search")
      · rw [if_pos hms] at h
        obtain ⟨_, _, h⟩ := bind_ok_inv_imp h
        obtain ⟨_, _, h⟩ := bind_ok_inv_imp h
        obtain ⟨p1, _, h⟩ := bind_ok_inv_imp h
        obtain ⟨_, _, h⟩ := bind_ok_inv_imp h
        obtain ⟨_, _, h⟩ := bind_ok_inv_imp h
        obtain ⟨nc, hnc, h⟩ := bind_ok_inv_imp h
        injection h with h'
        injection h' with hres hctx
        rw [← hctx]
        injection hnc with hnc'
        rw [← hnc']
        exact Or.inr (cursorWF_setPage fs _ hwf)
      · rw [if_neg hms] at h
        obtain ⟨_, _, h⟩ := bind_ok_inv_imp h
        obtain ⟨_, _, h⟩ := bind_ok_inv_imp h
        obtain ⟨_, _, h⟩ := bind_ok_inv_imp h
        obtain ⟨p1, _, h⟩ := bind_ok_inv_imp h
        obtain ⟨_, _, h⟩ := bind_ok_inv_imp h
        obtain ⟨_, _, h⟩ := bind_ok_inv_imp h
        obtain ⟨_, _, h⟩ := bind_ok_inv_imp h
        obtain ⟨nc, hnc, h⟩ := bind_ok_inv_imp h
        injection h with h'
        injection h' with hres hctx
        rw [← hctx]
        injection hnc with hnc'
        rw [← hnc']
        exact Or.inr (cursorWF_setPage fs _ hwf)
    · rw [if_pos htr] at h
      injection h with h'
      injection h' with hres hctx
      rw [← hctx]
      exact hinv
  · unfold handle_call at h
    rw [if_neg hn] at h
    cases hd : dispatchTool api web B cm name args with
    | none =>
      rw [hd] at h
      injection h with h'
      injection h' with hres hctx
      rw [← hctx]
      exact hinv
    | some op =>
      rw [hd] at h
      obtain ⟨v, hv, h⟩ := bind_ok_inv_imp h
      injection h with h'
      injection h' with hres hctx
      rw [← hctx]
      by_cases hl : isListToolName name = true
      · rw [if_pos hl]
        exact Or.inr (cursorWF_listCursor name args)
      · rw [if_neg hl]
        by_cases hsr : name = cs "search_courses"
        · rw [if_pos hsr]
          exact Or.inr (cursorWF_searchCursor args v)
        · rw [if_neg hsr]
          rw [last_query_update ctx v]
          exact hinv

/-- C7: over every session state reachable from a fresh session by tool
executions and resets, the stored cursor is either absent or mode-shaped —
a list cursor carries `sort`, `tab`, `categoryId`, `page`, `size` and never
a `keyword`; a search cursor carries `keyword`, `page`, `size` and never
`sort`, `tab` or `categoryId`; and the next-page in-place page increment
preserves this shape. -/
theorem c7_cursor_mode_invariant (api web : List Char) (B : Backend)
    (cm : JVal → List JVal → Option JVal) (ops : List Op) :
    cursorInv ((runOps api web B cm ops freshCtx).last_query) := by
  suffices h : ∀ ctx, cursorInv ctx.last_query →
      cursorInv ((runOps api web B cm ops ctx).last_query) by
    exact h freshCtx (Or.inl rfl)
  induction ops with
  | nil => intro ctx hc; exact hc
  | cons op ops ih =>
    intro ctx hc
    apply ih
    cases op with
    | reset => exact Or.inl rfl
    | tool name args =>
      simp only [stepOp]
      cases hh : handle_call api web B cm name args ctx with
      | error e => exact hc
      | ok pr =>
        obtain ⟨res, ctx'⟩ := pr
        exact handle_call_cursorInv api web B cm name args ctx res ctx' hc hh

end LearnIt
